import Mathlib

/-!
Shallow embedding of the love-match bot core (src/bot.py) in Lean 4.

The embedding covers the deterministic scoring engine and the reroll
session store:

* `_clean`, `_pair_key`, `_stable_int`, `_clamp`, `_pick` mirror the
  utility functions of bot.py;
* SHA-256 is implemented directly (bot.py calls hashlib.sha256);
* the pseudo-random generator is CPython's Mersenne Twister
  (`random.Random`), modelled bit-exactly: seeding via init_by_array,
  genrand_uint32, getrandbits, `_randbelow` rejection sampling,
  `randint`, `random()` (53-bit doubles) and `shuffle`;
* Python floats are binary64; every float arising in `compute_match`
  (vowel ratios, their difference, and the literals 0.05, 0.12, 0.10)
  is a dyadic rational, modelled exactly as an integer scaled by
  2 ^ 1100, with round-to-nearest-even division;
* `compute_match` itself is transcribed as `computeTrace`, which
  records the intermediate quantities (seed, base, bonuses, score)
  that the specification talks about, and `compute_match` projects
  the final `MatchResult`;
* the reroll session dictionary of the Telegram handlers is modelled
  as an association list with the create / reroll operations of
  `match_cmd` / `reroll_cb`, and `setsecret_cmd` as `setsecretStored`.
-/

/-- Word-size helper: 2 ^ 32, the modulus of all MT19937 and SHA-256
32-bit arithmetic. -/
def w32 : ℕ := 4294967296

/-- Rotate a 32-bit word right by n bits (n < 32, x < 2 ^ 32). -/
def rotr (n x : ℕ) : ℕ := x / 2 ^ n + x % 2 ^ n * 2 ^ (32 - n)

/-- Binary search for the base-2 logarithm: maintains
2 ^ lo ≤ t < 2 ^ hi and halves the interval (kernel-friendly
replacement for Nat.log2, which is defined by well-founded
recursion and does not reduce). -/
def lgAux (t : ℕ) : ℕ → ℕ → ℕ → ℕ
  | 0, lo, _ => lo
  | f + 1, lo, hi =>
    if hi ≤ lo + 1 then lo
    else
      let mid := (lo + hi) / 2
      if (1 <<< mid) ≤ t then lgAux t f mid hi else lgAux t f lo mid

/-- Floor of the base-2 logarithm, correct for 1 ≤ t < 2 ^ 2048
(and 0 at 0, like Nat.log2). -/
def log2F (t : ℕ) : ℕ := lgAux t 12 0 2048

/-- SHA-256 round constants. -/
def shaK : List ℕ :=
  [1116352408, 1899447441, 3049323471, 3921009573, 961987163, 1508970993, 2453635748, 2870763221,
   3624381080, 310598401, 607225278, 1426881987, 1925078388, 2162078206, 2614888103, 3248222580,
   3835390401, 4022224774, 264347078, 604807628, 770255983, 1249150122, 1555081692, 1996064986,
   2554220882, 2821834349, 2952996808, 3210313671, 3336571891, 3584528711, 113926993, 338241895,
   666307205, 773529912, 1294757372, 1396182291, 1695183700, 1986661051, 2177026350, 2456956037,
   2730485921, 2820302411, 3259730800, 3345764771, 3516065817, 3600352804, 4094571909, 275423344,
   430227734, 506948616, 659060556, 883997877, 958139571, 1322822218, 1537002063, 1747873779,
   1955562222, 2024104815, 2227730452, 2361852424, 2428436474, 2756734187, 3204031479, 3329325298]

/-- SHA-256 small sigma 0. -/
def ssig0 (x : ℕ) : ℕ := rotr 7 x ^^^ rotr 18 x ^^^ (x >>> 3)

/-- SHA-256 small sigma 1. -/
def ssig1 (x : ℕ) : ℕ := rotr 17 x ^^^ rotr 19 x ^^^ (x >>> 10)

/-- SHA-256 big sigma 0. -/
def bsig0 (x : ℕ) : ℕ := rotr 2 x ^^^ rotr 13 x ^^^ rotr 22 x

/-- SHA-256 big sigma 1. -/
def bsig1 (x : ℕ) : ℕ := rotr 6 x ^^^ rotr 11 x ^^^ rotr 25 x

/-- SHA-256 choice function (32-bit complement written as subtraction
from 2 ^ 32 - 1). -/
def shaCh (x y z : ℕ) : ℕ := (x &&& y) ^^^ ((4294967295 - x) &&& z)

/-- SHA-256 majority function. -/
def shaMaj (x y z : ℕ) : ℕ := (x &&& y) ^^^ (x &&& z) ^^^ (y &&& z)

/-- SHA-256 padding: append 0x80, zeros to 56 mod 64, and the 64-bit
big-endian bit length. -/
def shaPad (msg : List ℕ) : List ℕ :=
  let L := 8 * msg.length
  msg ++ 128 :: List.replicate ((119 - msg.length % 64) % 64) 0 ++
    [L / 2 ^ 56 % 256, L / 2 ^ 48 % 256, L / 2 ^ 40 % 256, L / 2 ^ 32 % 256,
     L / 2 ^ 24 % 256, L / 2 ^ 16 % 256, L / 2 ^ 8 % 256, L % 256]

/-- Group a byte list into big-endian 32-bit words. -/
def bytesToWords : List ℕ → List ℕ
  | b0 :: b1 :: b2 :: b3 :: rest =>
    (b0 * 16777216 + b1 * 65536 + b2 * 256 + b3) :: bytesToWords rest
  | _ => []

/-- Split a padded message into 64-byte blocks (count passed as fuel). -/
def toBlocksAux : ℕ → List ℕ → List (List ℕ)
  | 0, _ => []
  | k + 1, l => l.take 64 :: toBlocksAux k (l.drop 64)

/-- Blocks of a padded message. -/
def toBlocks (l : List ℕ) : List (List ℕ) := toBlocksAux (l.length / 64) l

/-- Extend the 16-word schedule to 64 words. -/
def schedExt : ℕ → List ℕ → List ℕ
  | 0, w => w
  | k + 1, w =>
    schedExt k (w ++ [(ssig1 (w.getD (w.length - 2) 0) + w.getD (w.length - 7) 0 +
      ssig0 (w.getD (w.length - 15) 0) + w.getD (w.length - 16) 0) % w32])

/-- SHA-256 working state (eight 32-bit words). -/
structure H8 where
  a : ℕ
  b : ℕ
  c : ℕ
  d : ℕ
  e : ℕ
  f : ℕ
  g : ℕ
  h : ℕ
deriving Repr, DecidableEq

/-- SHA-256 initial hash value. -/
def shaH0 : H8 :=
  ⟨1779033703, 3144134277, 1013904242, 2773480762, 1359893119, 2600822924, 528734635, 1541459225⟩

/-- One SHA-256 compression round. -/
def shaRound (st : H8) (wk : ℕ × ℕ) : H8 :=
  let t1 := (st.h + bsig1 st.e + shaCh st.e st.f st.g + wk.2 + wk.1) % w32
  let t2 := (bsig0 st.a + shaMaj st.a st.b st.c) % w32
  ⟨(t1 + t2) % w32, st.a, st.b, st.c, (st.d + t1) % w32, st.e, st.f, st.g⟩

/-- Compress one 64-byte block into the running hash. -/
def shaBlock (st : H8) (block : List ℕ) : H8 :=
  let w := schedExt 48 (bytesToWords block)
  let fin := (w.zip shaK).foldl shaRound st
  ⟨(st.a + fin.a) % w32, (st.b + fin.b) % w32, (st.c + fin.c) % w32, (st.d + fin.d) % w32,
   (st.e + fin.e) % w32, (st.f + fin.f) % w32, (st.g + fin.g) % w32, (st.h + fin.h) % w32⟩

/-- Big-endian bytes of one 32-bit word. -/
def wordBytes (x : ℕ) : List ℕ := [x / 2 ^ 24 % 256, x / 2 ^ 16 % 256, x / 2 ^ 8 % 256, x % 256]

/-- SHA-256 digest of a byte string, as 32 bytes. -/
def sha256 (msg : List ℕ) : List ℕ :=
  let st := (toBlocks (shaPad msg)).foldl shaBlock shaH0
  wordBytes st.a ++ wordBytes st.b ++ wordBytes st.c ++ wordBytes st.d ++
    wordBytes st.e ++ wordBytes st.f ++ wordBytes st.g ++ wordBytes st.h

/-- Lowercase hex character of a nibble. -/
def hexChar (n : ℕ) : Char := if n < 10 then Char.ofNat (48 + n) else Char.ofNat (87 + n)

/-- Value of a hex character (0 on non-hex input; int(_, 16) only ever
receives valid hex digits here). -/
def hexVal (c : Char) : ℕ :=
  let n := c.toNat
  if 48 ≤ n ∧ n ≤ 57 then n - 48
  else if 97 ≤ n ∧ n ≤ 102 then n - 87
  else if 65 ≤ n ∧ n ≤ 70 then n - 55
  else 0

/-- Hexdigest characters of a byte list (hashlib hexdigest is lowercase). -/
def bytesHex (l : List ℕ) : List Char := l.flatMap (fun b => [hexChar (b / 16), hexChar (b % 16)])

/-- Parse a big-endian hex character string as an unsigned integer. -/
def parseHex (l : List Char) : ℕ := l.foldl (fun acc c => acc * 16 + hexVal c) 0

/-- UTF-8 bytes of one unicode scalar value. -/
def utf8Char (c : ℕ) : List ℕ :=
  if c < 128 then [c]
  else if c < 2048 then [192 + c / 64, 128 + c % 64]
  else if c < 65536 then [224 + c / 4096, 128 + c / 64 % 64, 128 + c % 64]
  else [240 + c / 262144, 128 + c / 4096 % 64, 128 + c / 64 % 64, 128 + c % 64]

/-- UTF-8 encoding of a string (str.encode in Python). -/
def utf8Str (s : String) : List ℕ := s.data.flatMap (fun c => utf8Char c.toNat)

/-- State of CPython's Mersenne Twister: the 624 32-bit words packed
little-endian into one natural number (word i occupies bits
[32 i, 32 i + 32)), plus the output index. -/
structure MTState where
  mt : ℕ
  mti : ℕ
deriving Repr, DecidableEq

/-- Word i of a packed MT vector. -/
def mtWord (m i : ℕ) : ℕ := (m >>> (32 * i)) % w32

/-- Replace word i of a packed MT vector. -/
def mtSet (m i v : ℕ) : ℕ := m - (mtWord m i <<< (32 * i)) + (v <<< (32 * i))

/-- Loop body of init_genrand: fill words 1..623. -/
def initGenrandAux : ℕ → ℕ → ℕ → ℕ
  | 0, _, m => m
  | k + 1, i, m =>
    let w := mtWord m (i - 1)
    initGenrandAux k (i + 1) (mtSet m i ((1812433253 * (w ^^^ (w >>> 30)) + i) % w32))

/-- init_genrand from CPython's _randommodule.c. -/
def initGenrand (s : ℕ) : ℕ := initGenrandAux 623 1 (s % w32)

/-- First mixing loop of init_by_array (k = max(624, key length)
iterations, key folded in cyclically); returns the state together
with the final index i, which the second loop continues from. -/
def ibaAux1 : ℕ → ℕ → ℕ → List ℕ → ℕ → ℕ × ℕ
  | 0, i, _, _, m => (m, i)
  | k + 1, i, j, key, m =>
    let w := mtWord m (i - 1)
    let t := mtWord m i ^^^ (w ^^^ (w >>> 30)) * 1664525 % w32
    let m := mtSet m i ((t + key.getD j 0 + j) % w32)
    let i := i + 1
    let j := j + 1
    let (m, i) := if 624 ≤ i then (mtSet m 0 (mtWord m 623), 1) else (m, i)
    let j := if key.length ≤ j then 0 else j
    ibaAux1 k i j key m

/-- Second mixing loop of init_by_array (623 iterations). -/
def ibaAux2 : ℕ → ℕ → ℕ → ℕ
  | 0, _, m => m
  | k + 1, i, m =>
    let w := mtWord m (i - 1)
    let t := mtWord m i ^^^ (w ^^^ (w >>> 30)) * 1566083941 % w32
    let m := mtSet m i ((t + (w32 - i % w32)) % w32)
    let i := i + 1
    let (m, i) := if 624 ≤ i then (mtSet m 0 (mtWord m 623), 1) else (m, i)
    ibaAux2 k i m

/-- init_by_array from CPython's _randommodule.c. -/
def initByArray (key : List ℕ) : ℕ :=
  let m := initGenrand 19650218
  let mi := ibaAux1 (max 624 key.length) 1 0 key m
  let m := ibaAux2 623 mi.2 mi.1
  mtSet m 0 2147483648

/-- Split a seed into little-endian 32-bit words (fuelled division
chain; fuel 64 covers seeds below 2 ^ 2048, far above the 64-bit
seeds produced by _stable_int). -/
def natWords : ℕ → ℕ → List ℕ
  | 0, n => [n]
  | f + 1, n => if n < w32 then [n] else n % w32 :: natWords f (n / w32)

/-- Key array CPython derives from an integer seed (absolute value
split into 32-bit words; a zero seed gives the one-word key [0]). -/
def seedKey (n : ℕ) : List ℕ := if n = 0 then [0] else natWords 64 n

/-- random.Random(seed) for a non-negative integer seed. -/
def mtInit (seed : ℕ) : MTState := ⟨initByArray (seedKey seed), 624⟩

/-- One step of the MT19937 state regeneration. -/
def twistAux : ℕ → ℕ → ℕ → ℕ
  | 0, _, m => m
  | k + 1, kk, m =>
    let y := (mtWord m kk &&& 2147483648) + (mtWord m ((kk + 1) % 624) &&& 2147483647)
    let v := mtWord m ((kk + 397) % 624) ^^^ (y >>> 1) ^^^ (if y % 2 = 1 then 2567483615 else 0)
    twistAux k (kk + 1) (mtSet m kk v)

/-- Regenerate all 624 words (the genrand_uint32 refill loop). -/
def twist (m : ℕ) : ℕ := twistAux 624 0 m

/-- genrand_uint32: refill when the index is exhausted, then output
one tempered word. -/
def genrand (s : MTState) : ℕ × MTState :=
  let s := if 624 ≤ s.mti then ⟨twist s.mt, 0⟩ else s
  let y := mtWord s.mt s.mti
  let y := y ^^^ (y >>> 11)
  let y := y ^^^ ((y <<< 7) &&& 2636928640)
  let y := y ^^^ ((y <<< 15) &&& 4022730752)
  let y := y ^^^ (y >>> 18)
  (y, ⟨s.mt, s.mti + 1⟩)

/-- getrandbits(k) for 1 ≤ k ≤ 32: the top k bits of one output word. -/
def getrandbits (k : ℕ) (s : MTState) : ℕ × MTState :=
  let r := genrand s
  (r.1 >>> (32 - k), r.2)

/-- Rejection-sampling fuel. Random._randbelow_with_getrandbits loops
until a draw is accepted; the loop is modelled with fuel, returning 0
(still within range) in the probability-zero exhaustion case. -/
def rejFuel : ℕ := 1024

/-- Random._randbelow_with_getrandbits: draw bit_length(n) bits until
the value is below n. -/
def randbelowAux (n : ℕ) : ℕ → MTState → ℕ × MTState
  | 0, s => (0, s)
  | f + 1, s =>
    let k := log2F n + 1
    let r := getrandbits k s
    if r.1 < n then r else randbelowAux n f r.2

/-- _randbelow with the standard fuel. -/
def randbelow (n : ℕ) (s : MTState) : ℕ × MTState := randbelowAux n rejFuel s

/-- randint(a, b) = randrange(a, b + 1) = a + _randbelow(b - a + 1). -/
def randint (a b : ℕ) (s : MTState) : ℕ × MTState :=
  let r := randbelow (b - a + 1) s
  (a + r.1, r.2)

/-- random(): a 53-bit numerator v, the float value being v / 2 ^ 53
(exactly representable in binary64). -/
def randDouble (s : MTState) : ℕ × MTState :=
  let r1 := genrand s
  let r2 := genrand r1.2
  ((r1.1 >>> 5) * 67108864 + (r2.1 >>> 6), r2.2)

/-- Simultaneous swap x[i], x[j] = x[j], x[i] on a list (both reads
happen before either write, as in the Python tuple assignment). -/
def listSwap (l : List String) (i j : ℕ) : List String :=
  (l.set i (l.getD j "")).set j (l.getD i "")

/-- Fisher-Yates loop of random.shuffle: the call shuffleAux l s i
performs the iterations for indices i, i-1, ..., 1. -/
def shuffleAux : List String → MTState → ℕ → List String × MTState
  | l, s, 0 => (l, s)
  | l, s, i + 1 =>
    let r := randbelow (i + 2) s
    shuffleAux (listSwap l (i + 1) r.1) r.2 i

/-- random.shuffle(x): for i in reversed(range(1, len(x))):
j = _randbelow(i + 1); swap. -/
def pyShuffle (l : List String) (s : MTState) : List String × MTState :=
  shuffleAux l s (l.length - 1)

/-- _pick from bot.py: empty pool gives [] (no draw); k ≤ 1 indexes
one random element; otherwise shuffle a copy and take the first k. -/
def _pick (s : MTState) (items : List String) (k : ℕ) : List String × MTState :=
  if items.isEmpty then ([], s)
  else if k ≤ 1 then
    let r := randbelow items.length s
    ([items.getD r.1 ""], r.2)
  else
    let r := pyShuffle items s
    (r.1.take k, r.2)

/-- _clamp from bot.py, on integers (Python ints are unbounded). -/
def _clamp (n lo hi : ℤ) : ℤ := max lo (min hi n)

/-- Scale exponent of the exact binary64 model: every double arising
in compute_match is an integer multiple of 2 ^ (-1100) and is stored
as that integer. -/
def fpScale : ℕ := 1100

/-- Round-to-nearest-even of the rational a / b to an integer. -/
def rne2 (a b : ℕ) : ℕ :=
  let q := a / b
  let r := a % b
  if 2 * r < b then q
  else if b < 2 * r then q + 1
  else if q % 2 = 0 then q else q + 1

/-- Correctly rounded binary64 value of the positive rational p / q,
as a scaled integer (valid for 2 ^ (-500) < p / q < 2 ^ 50, which
covers every value compute_match produces: vowel ratios lie in
[1/64, 1] or are 0, their differences are multiples of 2 ^ (-58),
and random() values are multiples of 2 ^ (-53)). -/
def flPos (p q : ℕ) : ℕ :=
  let t := (p <<< 600) / q
  let L := log2F t
  let m := rne2 (p <<< (652 - L)) q
  m <<< (448 + L)

/-- Binary64 value of a non-negative rational, scaled by 2 ^ 1100. -/
def flQ (p q : ℕ) : ℕ := if p = 0 then 0 else flPos p q

/-- The double literal 0.05 of bot.py (scaled). -/
def c005 : ℕ := flQ 1 20

/-- The double literal 0.12 of bot.py (scaled). -/
def c012 : ℕ := flQ 12 100

/-- The double literal 0.10 of bot.py (scaled). -/
def c010 : ℕ := flQ 1 10

/-- Python str whitespace (the characters str.strip removes and \s
matches in str regexes). -/
def pyIsSpace (c : Char) : Bool :=
  let n := c.toNat
  (9 ≤ n && n ≤ 13) || (28 ≤ n && n ≤ 32) || n == 133 || n == 160 || n == 5760 ||
    (8192 ≤ n && n ≤ 8202) || n == 8232 || n == 8233 || n == 8239 || n == 8287 || n == 12288

/-- str.strip() on a character list. -/
def pyStripL (l : List Char) : List Char :=
  ((l.dropWhile pyIsSpace).reverse.dropWhile pyIsSpace).reverse

/-- Loop of re.sub(r"\s+", " ", s): each maximal whitespace run
becomes one space; the flag records whether the previous character
belonged to a run already replaced. -/
def collapseAux : Bool → List Char → List Char
  | _, [] => []
  | inRun, c :: cs =>
    if pyIsSpace c then
      if inRun then collapseAux true cs else ' ' :: collapseAux true cs
    else c :: collapseAux false cs

/-- re.sub(r"\s+", " ", s). -/
def collapseWs (l : List Char) : List Char := collapseAux false l

/-- _clean on character lists: strip, collapse whitespace runs,
truncate to 64 characters. -/
def cleanL (l : List Char) : List Char := (collapseWs (pyStripL l)).take 64

/-- _clean from bot.py. -/
def _clean (s : String) : String := ⟨cleanL s.data⟩

/-- str.strip() from Python. -/
def pyStrip (s : String) : String := ⟨pyStripL s.data⟩

/-- str.lower() from Python (modelled with the character-wise case
mapping of Char.toLower; exact on ASCII, which is also where it is
exercised by the theorems below). -/
def pyLower (s : String) : String := ⟨s.data.map Char.toLower⟩

/-- Strict lexicographic comparison of character lists by code point
(Python string <). -/
def lexLt : List Char → List Char → Bool
  | [], [] => false
  | [], _ :: _ => true
  | _ :: _, [] => false
  | a :: as, b :: bs =>
    if a.toNat < b.toNat then true
    else if b.toNat < a.toNat then false
    else lexLt as bs

/-- Python string comparison a <= b (code-point lexicographic). -/
def pyLe (a b : String) : Bool := ! lexLt b.data a.data

/-- _pair_key from bot.py: strip and lowercase both names and order
the pair lexicographically (Python string comparison is lexicographic
on code points). -/
def _pair_key (a b : String) : String × String :=
  let a := pyLower (pyStrip a)
  let b := pyLower (pyStrip b)
  if pyLe a b then (a, b) else (b, a)

/-- _stable_int from bot.py: join the stripped, lowered parts and the
secret with "|", SHA-256 the UTF-8 bytes, parse the first 16 hex
characters of the hexdigest. -/
def _stable_int (secret : String) (parts : List String) : ℕ :=
  let raw := String.intercalate "|" (parts.map (fun p => pyLower (pyStrip p))) ++ "|" ++ secret
  parseHex ((bytesHex (sha256 (utf8Str raw))).take 16)

/-- Reason pool of compute_match (verbatim, including the mojibake
characters present in the source file). -/
def reason_pool : List String := ["cara mikir kalian komplementer, bukan tabrakan", "satu spontan, satu rapiâ€”kalau saling ngerti jadi kuat", "chemistry ada, tinggal konsistenin effort", "ritme komunikasi cocok: nggak kebanyakan, nggak kelamaan ngilang", "humor kalian sefrekuensi (asal roastingnya nggak keterlaluan)", "perlu clear soal batasan biar aman", "kalau ngambek, jangan silent treatmentâ€”ini titik rawan"]

/-- Green-flag pool of compute_match. -/
def green_pool : List String := ["supportive", "cepat baikan", "nyaman jadi diri sendiri", "bisa teamwork", "careful tapi tulus", "bikin tenang"]

/-- Red-flag pool of compute_match. -/
def red_pool : List String := ["overthinking", "gengsi minta maaf", "suka asumsi", "baper pas capek", "komunikasi putus-nyambung", "mendadak ngilang"]

/-- Distinct characters of the lowered string (Python set(s.lower())). -/
def charSet (s : String) : Finset Char := (s.data.map Char.toLower).toFinset

/-- similarity_bonus from compute_match: clamp(|set(x.lower()) and
set(y.lower())| - 6, -3, 8). -/
def similarity_bonus (x y : String) : ℤ :=
  _clamp (((charSet x ∩ charSet y).card : ℤ) - 6) (-3) 8

/-- Vowel count of vowel_ratio: characters of s.lower() in "aiueo". -/
def vowelCount (s : String) : ℕ :=
  ((s.data.map Char.toLower).filter (fun c => c ∈ ['a', 'i', 'u', 'e', 'o'])).length

/-- vowel_ratio from compute_match as an exact binary64 value
(scaled): v / max(1, len(s)) in Python float division. -/
def vowelRatioF (s : String) : ℕ := flQ (vowelCount s) (max 1 s.data.length)

/-- abs(vowel_ratio(a) - vowel_ratio(b)) as an exact binary64 value:
the float subtraction rounds the exact dyadic difference. -/
def vrF (a b : String) : ℕ :=
  let r1 := vowelRatioF a
  let r2 := vowelRatioF b
  flQ (max r1 r2 - min r1 r2) (1 <<< fpScale)

/-- Label and vibe if/elif chain of compute_match, as a function of
the clamped score. -/
def tierOf (score : ℤ) : String × String :=
  if 90 ≤ score then ("Soulmate Mode", "Kalian kalau chat, universe ikut ngetik.")
  else if 75 ≤ score then ("Green Flag Couple", "Nyambungnya enak, asal komunikasi jalan.")
  else if 60 ≤ score then ("Potential (butuh effort)", "Chemistry ada, tinggal konsistenin usaha.")
  else if 45 ≤ score then ("50:50", "Bisa jadi, bisa bubar. Jangan mager komunikasi.")
  else ("Hati-hati", "Bukan nggak bisa, cuma rawan salah paham.")

/-- Intermediate values of one compute_match evaluation: the pair key
(a, b), the seed, the uniformly drawn base, the similarity bonus, the
vowel-ratio adjustment, the two optional perturbations (0 when the
probability gate fails), the total bonus, the clamped score, and the
tier/content outputs. -/
structure Trace where
  a : String
  b : String
  seed : ℕ
  base : ℤ
  simB : ℤ
  vowelAdj : ℤ
  add1 : ℤ
  sub1 : ℤ
  bonus : ℤ
  score : ℤ
  label : String
  vibe : String
  reasons : List String
  greens : List String
  reds : List String
deriving Repr, DecidableEq

/-- Tail of compute_match once the five scalar contributions and the
generator position after the perturbation draws are fixed: total the
bonus, clamp the score, look up the tier, and sample the three
content pools with the same generator. -/
def mkTrace (ab : String × String) (seed : ℕ) (base simB vowelAdj add1 sub1 : ℤ)
    (g3 : MTState) : Trace :=
  let bonus := simB + vowelAdj + add1 - sub1
  let score := _clamp (base + bonus) 1 100
  let lv := tierOf score
  let rs := _pick g3 reason_pool (if 70 ≤ score then 3 else 2)
  let gs := _pick rs.2 green_pool (if 75 ≤ score then 3 else 2)
  let ds := _pick gs.2 red_pool (if 60 ≤ score then 2 else 3)
  ⟨ab.1, ab.2, seed, base, simB, vowelAdj, add1, sub1, bonus, score, lv.1, lv.2, rs.1, gs.1, ds.1⟩

/-- Body of compute_match from the line base = rng.randint(35, 92)
onward, over the pair key, the seed (recorded in the trace) and the
freshly seeded generator; the accumulator bonus of the source is
recorded as the sum of its four contributions, totalled in mkTrace. -/
def computeTraceRng (ab : String × String) (seed : ℕ) (g0 : MTState) : Trace :=
  let a := ab.1
  let b := ab.2
  let br := randint 35 92 g0
  let base : ℤ := (br.1 : ℤ)
  let g1 := br.2
  let simB := similarity_bonus a b
  let vr := vrF a b
  let vowelAdj : ℤ := if vr < c005 then 5 else if vr < c012 then 2 else -1
  let d1 := randDouble g1
  let p1 : ℤ × MTState :=
    if (d1.1 <<< (fpScale - 53)) < c012 then
      let r := randint 2 7 d1.2
      ((r.1 : ℤ), r.2)
    else (0, d1.2)
  let add1 := p1.1
  let g2 := p1.2
  let d2 := randDouble g2
  let p2 : ℤ × MTState :=
    if (d2.1 <<< (fpScale - 53)) < c010 then
      let r := randint 1 5 d2.2
      ((r.1 : ℤ), r.2)
    else (0, d2.2)
  let sub1 := p2.1
  let g3 := p2.2
  mkTrace ab seed base simB vowelAdj add1 sub1 g3

/-- Body of compute_match after the pair key has been formed: derive
the seed with _stable_int, seed the generator, and continue with
computeTraceRng. -/
def computeTraceKeyed (secret : String) (ab : String × String) (nonce : ℕ) : Trace :=
  computeTraceRng ab (_stable_int secret [ab.1, ab.2, toString nonce])
    (mtInit (_stable_int secret [ab.1, ab.2, toString nonce]))

/-- compute_match with its intermediates exposed. -/
def computeTrace (secret name1 name2 : String) (nonce : ℕ) : Trace :=
  computeTraceKeyed secret (_pair_key (_clean name1) (_clean name2)) nonce

/-- MatchResult dataclass of bot.py. -/
structure MatchResult where
  score : ℤ
  label : String
  vibe : String
  reasons : List String
  greens : List String
  reds : List String
deriving Repr, DecidableEq

/-- compute_match from bot.py. -/
def compute_match (secret name1 name2 : String) (nonce : ℕ) : MatchResult :=
  let t := computeTrace secret name1 name2 nonce
  ⟨t.score, t.label, t.vibe, t.reasons, t.greens, t.reds⟩

/-- One reroll session: the two display names and the current nonce. -/
structure SessionEntry where
  name1 : String
  name2 : String
  nonce : ℕ
deriving Repr, DecidableEq

/-- The reroll_sessions dictionary (token to session), as an
association list; new entries are prepended and List.lookup finds the
entry of a token. -/
abbrev SessionStore := List (String × SessionEntry)

/-- Session creation of match_cmd / ship_cmd: sessions[token] =
(name1, name2, nonce 0); the token is a fresh secrets.token_urlsafe(8)
value, passed here as a parameter. -/
def createSession (store : SessionStore) (token n1 n2 : String) : SessionStore :=
  (token, ⟨n1, n2, 0⟩) :: store

/-- Overwrite the entry of a token (dict item assignment). -/
def storeSet (store : SessionStore) (token : String) (e : SessionEntry) : SessionStore :=
  store.map (fun p => if p.1 = token then (p.1, e) else p)

/-- Outcome of reroll_cb: an unknown token answers with the session
expired message and changes nothing; a known token increments the
nonce, persists it and recomputes the match. -/
inductive RerollOutcome where
  | expired (store : SessionStore)
  | rerolled (store : SessionStore) (result : MatchResult) (newNonce : ℕ)
deriving Repr, DecidableEq

/-- reroll_cb from bot.py, restricted to its session-store and
scoring effect. -/
def reroll (secret : String) (store : SessionStore) (token : String) : RerollOutcome :=
  match store.lookup token with
  | none => .expired store
  | some s =>
    let n := s.nonce + 1
    .rerolled (storeSet store token ⟨s.name1, s.name2, n⟩)
      (compute_match secret s.name1 s.name2 n) n

/-- setsecret_cmd from bot.py: the joined argument string is stripped;
an empty argument stores nothing, otherwise SEED_SECRET becomes
_clean(arg). -/
def setsecretStored (arg : String) : Option String :=
  let a := pyStrip arg
  if a = "" then none else some (_clean a)

/-- Maximal whitespace-delimited words of a string (accumulator holds
the current word reversed). -/
def wordsAux : List Char → List Char → List (List Char)
  | [], acc => if acc.isEmpty then [] else [acc.reverse]
  | c :: cs, acc =>
    if pyIsSpace c then
      if acc.isEmpty then wordsAux cs [] else acc.reverse :: wordsAux cs []
    else wordsAux cs (c :: acc)

/-- Whitespace-delimited word sequence of a string. -/
def wsWords (s : String) : List (List Char) := wordsAux s.data []

/-- Tier label as the specification states it, by descending score
intervals (with the label strings the code actually uses). -/
def tierLabel (s : ℤ) : String :=
  if 90 ≤ s then "Soulmate Mode"
  else if 75 ≤ s ∧ s < 90 then "Green Flag Couple"
  else if 60 ≤ s ∧ s < 75 then "Potential (butuh effort)"
  else if 45 ≤ s ∧ s < 60 then "50:50"
  else "Hati-hati"

/-- Tier vibe sentence by the same score intervals. -/
def tierVibe (s : ℤ) : String :=
  if 90 ≤ s then "Kalian kalau chat, universe ikut ngetik."
  else if 75 ≤ s ∧ s < 90 then "Nyambungnya enak, asal komunikasi jalan."
  else if 60 ≤ s ∧ s < 75 then "Chemistry ada, tinggal konsistenin usaha."
  else if 45 ≤ s ∧ s < 60 then "Bisa jadi, bisa bubar. Jangan mager komunikasi."
  else "Bukan nggak bisa, cuma rawan salah paham."

/-- Packed MT state after init_genrand(19650218), the common starting point of init_by_array (used to evaluate concrete seeds in bounded reduction steps). -/
def mtM0 : ℕ := 62685089405509111925910797243914719854890513935494713084094713797279779630627496305943786046941309007281293105221577504421353501605599255248785149356818580886163074212016138319710181437623915839386196989339984175865611290932895638485827512283879634622589907034847096838980553398268338905605705315464924834076955485269257682765843392777664062904318116756644819538761883164862381873685805923051342196114892111881287659915424456096361326051748180740843339721465950121631833352165428366344241754810081140762710579390137795215443629123183303201044796731629341661542390258966032612552126580439913324626563213547393121217728067632048719897064596438939163041106934301355643192260261867872030533878188557727018817797219012064641958276099544136480610826250078810896212505254064619595899307426216931651016613164877613570296351724055264357110051005104450572173606849938075379012356137114572525910752676385589168436483206759652170097284388598518122222819376116616668668677988651997615236221431416155794821321118852088948452164682783715959922435191327367306488124638818446090532334864386359317233873012285172875896330714873881780586230596002778688422250420590175698633544778262136505069053046737202152515000629854634631225453245996997340762744567896897683212149150732909707719966588817675821630380251456266588599804209831660991462715440400663143017564651072677052296295930367391822676512661642282350234567553218318066651318510488484545671729568971887621684270732981974442582657502555066960418690332945218280990034155505553171409775830458482159957769211244505225186771766058316021949327301666418107251589707938065072144733816368743637495699897181007119363672460040974223449086641663004605507793014252452324150238463715514559124307431648478948480649031081489229583165223570218974125422263886587593014744330199975749832650568652404661542746543584685860761547297457070273167102314576665676644281998277713093924236551494770138725647883566971887853912300960949802636372591951717316415323846182747445131420005722224687602711525724505110953736568981699982016588947035894059736087136235396798804019434387781559696138411966704777989194870090051835909943079457649936020314680876367897457337488804889342331824364904005266943816631681518612047693872607083945336048154993001716858914072302230374294986610531277637599664647525761147514008899238689946802093944865612982597431648203028809043429562401771290925843222821220221381984318518256971016750121270624021542153515130386081256853244444367484914891752438843250797295149886721543902585582757118492217204960123203770309672216674331373413106027454841661967870247822106376003696537006476355273043676224973894002060133928765135363584693312631060562155459381152426642778209514491263275588735458188352331628933634618912177576995916817414488324819680108333628484452298807271017999262374749573133359090629722111402666396222385680310709557844049479865847370371052888681758484468279513921172987571336140289500145715018352119752770038578015899178947425013401300127437407370742417936980607757405410607208376626705322894782663757703548808362869195819947150150865798288136994832911439410269353230208345410503242199606186650417333579047848825834242257112060317620885151293421378661990197161958015730358249113963865616811805417654957899792836277351433146683316643158745577273742588847277405020330699298979666450169324546781433015633218213248018986767013905101885085728066131985273947793365444250280947765884488609302913437528001802423347517836456663978922564542901160075954132077499502061844004777463229898312792357201472450520034421742281215395838957029567457078867297742321364249618062920323524100796395855490398720473188748064226082130624085325443879193454095100721902723688608983702297802922465778395428510531587340343771240068168890882622394112252370643121994567113348850616779414952571984309063927162547038575769391208822294299053225776973195785292510157058775147687493667385905281728614066936870793483631104130486096422866739022254251631022238998824784309871214211336594149372534724828516536519652291847191320934127662041939033266344757810255450761243406685982638804631309022215852991706323223872506356963395668107287976200691035733250165615782065576159415303394415966535152327550107294310945533761757937224536792146711105700674959937207778503501562879445241463662142281185819506210181780721218897488871995890898495582077564387715740371190275817001449471008660140255770382875594805433223352833476546594040372715841292252983175468170554585838014797017976570586587751089146553833551413146641975370517778330202052282190648141351908509904289169596729111939424597802445523234111653813513351586367960175769546506050051493655326103823629699245586418016468660736051425039803522537493270385743437525903109563398688573456345292160567787373069854610200635728800730405759403691875432721043746233636765094325962472698626875833148826372580999341547042531665331710768365982359935219565301595187067772247975847412037958098451506998773182171027695752045356894447709388159633645629545493246019135820915900506906032640701290570506299065346661219735445730896769091171352761432210047450382980030625592142825700677633624952217795344145832513082782540989616413040988227257601039794195623143595351637462190706636535912449334420058581521218743569834717812580171279915160794789675762903718339466089866492140118823551337811927493524761760551434001520245324751568861558716803095718510972066599595072196209156923318071322517301806566620458899402166430591631348363311478802800521980525250372511467674969151489645720009661369785217086930227581405674315978920044798755483144811069077253851302610194739624245401270682864202663540116818822475326676741780611737275972111438408802370422377608919256570335384654037352344114105999356653180812503717835632673409647782213628400383443178293619326757139369589058612122088577237252104060778375287897543799460272211546791798613974575310224299012205778134871255296492395729078221387894808011355820153110205338707003138385845672884757408327786763143168159295742358655797897448897721796416755370

/-- Precomputed intermediate value keyCx5 of one concrete MT seeding (see the counterexample evaluations below). -/
def keyCx5 : List ℕ := [3363434726, 522498368]

/-- Precomputed intermediate value i1Cx5 of one concrete MT seeding (see the counterexample evaluations below). -/
def i1Cx5 : ℕ := 2

/-- Precomputed intermediate value mt1Cx5 of one concrete MT seeding (see the counterexample evaluations below). -/
def mt1Cx5 : ℕ := 17259002989588531080338225616715863008446485884267546617901051478422553796403792794282645420914987187083619762008204326145090792039056103436981105318500931106038155330448554115807379295776202152448183919216252575356717844581006294301323996811197408453464021895668340868016766307772996827021047724171094173828387521611571335165539721160447411073415752834076045285101314902305886510525020435066923366214081760685436583502419926734752325055187152337468296401633865565242696254390365665236495407879405397331497135129772206384331953722333566947386520801373709348948588517940180116315905500677585708879869641268573568784380025277244509064158769788115272755144556080096831885789710901751850199098676530657558909310905234299549831896721693079841722429955288301162446267172966359445714266816451018592679562955668276587852160010028366379465159481562192606677199531603879483460181102310256400738656346656916312837429385576004016107608726144169069689146011177982510609836854756535601696817595427870156948132920337434980174902431581522460442548113649283664061205456956761904069847974980673254456384931416435583922889948535673158775516592316568893403652598596550218732975092913018882182514459320673308287934843459356333496894337801881442986285776761647423765843543219901833680873461370134126997118030640048201432248232217220047970542848633929894960068081211308079937223429121066969634358896843758753081736205807785542851329313563767430548664631799325914944680460937484488721456205415787508076042823479795981893914855961366217289431964067402348008286471334137124789684022388895554932774227917078882815875842300564100148762587605661153548906451276397370963148052452785574630865552045921066875369397216733032478017231002754704059728807016550282297812557085515613317727070025639320683773153831087118057706943695996548567230643817631710882375202235585144534247175843093192826812977423702945974398538524601534481400595567508974062421330393697608976456605769043406773665007520425700731717007911301610117834031006548129405687873736212410980982802153184901564160572338145752825797275701799547059112829253228361369380069599597194834132448992097007603328071789876425539718449708244876639332474986185393594338324782820723001995631515879096356294796743744238426582131656340020303615238680902136309269537795084149703343247690602627322646472055537678726811031400168479919520761381608198412459268690405996728309878104485256862867560555595889176744612541562001855229270569546578876455359557978545651906029697391890904483536464702314887446523739235191442236418701738112533029570973055312446365348198861525860626852919366052300537496086020390326555327270030995863020835764416947562867105672885516441528101784761563518902166424699872251355034729798025237371973436628961785386114543972639112959969236014007466705408223688120036340634060145553398520031937593085744749020595341023649956276027714451706365871930962611190433933288384078211659328466131529153144962069719075629456972841967149173088871432107748839049606786098415254313554787096539225086835162076364285366783998210512964525843306828176541572867014994507750709105378882831564077833127416348388372364921480311052314580857426039525030127496550984477576044796318969437688627001784445457072492753084773295354551110295125850969467897789474344837634110094764288576803417612187734670802892870529245580557274484856888217685808278665198305687760698107055901666461987969571452519779405756431686966755259800090294913394565464304057351265028948497498383522327789884726042692290989663501969480917744488837656071867172004402955290206257713046350910386823471403777671555926287117888023020074566069805147302675243819981743790965900268655891920153898680192211871869896891591372642594139529564370305806231679650623648190381247663069376224675244640629612767840040184208567539180187370382179496171607214379061560874466431722720535442570978399095822796668195568036750077100259277314617054213278574312759078036893367062351971119093041668073730656886921928360688945757738588839028575863158635776175845576925144495303509197994561328899498244436097748602372498691607769804871580507186071192536283905086927780213597480666436372374372704107786807736019967815899614762194894583766645856741799283525697390468915720426190357401655123300090896086744926244740409163821750251893571785924210611932617807319632837515475818965172107185138206740564407787223239300588146391218004604365407624611466614840642615128341621230249169764088130317196999483130075207997509226995621057998648293708733777441373151318383492775044037216939736731940662106827513552432318962171260269046715424551584348576915727796807000399225898956285345817170188758306343807964016030296924848626316922055711954213070175065291023910085732588746786285867568116132470801355756259859445695788938565413428555996332601017905819903502905857329848379985032109387119073833927057655459669712061207122741964389450837513879046376452533942462230937624885933742993895387350850528763802730269786612270186562775602087924062170751201685171564839768359192673433938684396192372235071028502307216166772172442244916775169637090927373031091628230644113409653828951435483532536553534975670406825264351031305697031315320445129057015078351045305622468775606842983818499441074737599862509211784313912838344735359213273856880868488409395918149548880867747335323376557063990728538405009014771299548923858402968287939596588416919050029412111275103871753414223826573194669954669861118121202242077940191096003858286132450465321526949037964611520378111919931335864885687566702233282264703364855825612454478761873072315998681208235988122690047967419156121899738839976645170566186658612664454147054039519516769698343842384398189417610685484811086108027257786384531895396245447787504002819906832829804362152365164336500966810531138595091311889653288304399373946444809421452372338535989799390642703068123226926909319345050001758745947163072274292386252591635362879625710274136073155133962349082447122050076931383130184002157523959279842948821772055330120530485590477227332993973613924165951459

/-- Precomputed intermediate value mt2Cx5 of one concrete MT seeding (see the counterexample evaluations below). -/
def mt2Cx5 : ℕ := 87998182785721626493663865202424310516504781182888220344117138636300072003851864101815914327485616663293892746681308426956657425942443701565899711196875369269159523823345659442682676446608337537664285113620175864879721966955771054767380195853756691470593576516634460797460054098862874175688843347362875659291073535155432350549579085238404458224266764650265238451356341358429261004736982177169561166102370150216407025558831330160529535406360967871951733582561184230082479615845907576285505444289865751951348277913829670463467064539527986961795111673844428866552806241778038906441614130267804820303555782357444747392899469454240070129363793523571091021159706449420334476731556136598480890245700881569004722827228930070659842517449283564306689405512939571550861722928215496715758177494515012379308949942503024045094043945299560187639456416306897177071477908508426583191800620828194571206343910247269705120576552879550611808234038131276285547427135383107631402133645724582676686883601183436378566635682837502432546661879655603227328100100501962879723654807386010286543535992063822504943891542274440215200179520505034781288221956329997745553971490696351597440583638094982227727080441602577800120229735367697500502769190332471658155776066905759851841288171217657528083658316384425638638128867144629893863332988345802599300677914550646679551176528082788543806126794840182949034137296493144718058342385368888353853141372259796631731019145030794187302790556590689290075921373655904463279690040848207654769182523168429163003963949624659090167294539909905113682613940229983096945151502142839508772163924523158590979151182822788204189342415022706018451150190849481870393713930620153074624742127789829301661617352951805612871185612604575358080448427461128832100096157891788459548474491007412493038263013673198935337466612873170927061587609341189344689262202032447074714657781708594909521505853868266541739044581161207222773794793527248634359631479279785122390080185321765364497712315681781534554799134265751491818886437279970832212392795746748604364476046384153422804449931547779420874932213215740282114394400689505166125119447684927172174849669424452070762132271433601379878348427041547652979111738070195313118339070618013917147974716010072797427827335041494042634366184309459117537420085587531201840921704854959499818718790842718709049624088833436260144803398994540643082352677787482430892770074852837697187884121423186217260490913127959675443705166089329947314041405892804619568510219359366959220506295073086925016980656834180093222927643633916353470562741801166471515426278006560721690876855981332606595970433857605647651566388168468239975667371585356922394986325670179242442145801084234560271339313301168636203037716665241954954318737472957939710338053772096431888965013182752097633332196380770817672069879936763233505969408648131560982121236641051026091570140314289175972284518546147620876224402609762635737828749160829638424682964581280474794638952392676811117253304317759804952691281784079701687749175102722631884647125074007810052518830583399718383718959313644843855793626525552926446603952931940045459672374061952086674551015720194479588820710459087953903774218453880522708141997090771930647750009980593739206095920341127222893036273433396571257964094753211289905352078527954841738041216350021410879049314231471773034516827858318165402267597079924478881206711254812889547488886230144562636931317816798352435668895570823188400875787453608869241033117779575318840046750843307644335042186036576872414498938132091889659047954545535471110242090069167548113853960676450231275760641242353369463840780356599653343707087222612295960044502008535996249390728025904427318466524747281254485891505654496549020410622647818342777047472453317025315041707398219123033144228779732993784931324465021843845416677373024778280811815164344472709628336560576922561897174204863176476848970164663960330651061524961770991411704507342494391498173885976561006695211498854512281088735277444890162074183891956489518279589889370418571465141791264263982261412799441765362070420403781687376266312974565396403556062450562717125184569625792219746912675475746344814875883583057364474138447843802634664412843205965551698737508613967890486771407168917605610737880994002254078468086483766435499850750694347113080284932982405556731862050763732855219217491307163100773754804856369090115777109598315578280965514532421445863164857579802430827997453682509967349478649666853737674688695489106339984244521870136778702302613006714185335326093591550555247125245273250894997340911376459158654682586950363234811848468469066395485057585930833075781135664566169356013783017738852909099673042157372910560147222899529349316909958178894708386501578194342468023128645325346433306687402480422246178055297454537379826020112776942704078269788233100926042217367414211360702167954586367197698074057319127988496475419232950213154614279486879015038032191371698008277890587049737552071117363216529665085742874706906886825410167871114807009389885049062647117785563484019818693627700424805482467885235535781394489243957400729149046098023256921567225954098510263579269006536302004281465111199793608200565884844474629410803703638650425863424914584559324785554706015552333847496087790074287129523477789937466604998355682066604020417334671897932076655810373406229788790461713631111057265969264198640878571610299115122017786574620760220707858790669297270838047702372904290468364908990054907769160367875749919047688868868166192987071830439344671009215365944387683099916222831271846652635621762004763180817821662941186379191794267953002062041195588219503854108565994740976150333293648881971267712752697814262500310937612510855221213867273479335630006588155238781209396206353449149989932865752630927454418325008277873359564240273347314344916031404548156164508183104916694173102198735428546426402914989686802093222762550773398456853371768047849741555083406550673198108156012496455276875893744560376483018460102854711381528944169531525067458561244050440026132296176555735634313048546927316793

/-- Precomputed intermediate value mt3Cx5 of one concrete MT seeding (see the counterexample evaluations below). -/
def mt3Cx5 : ℕ := 87998182785721626493663865202424310516504781182888220344117138636300072003851864101815914327485616663293892746681308426956657425942443701565899711196875369269159523823345659442682676446608337537664285113620175864879721966955771054767380195853756691470593576516634460797460054098862874175688843347362875659291073535155432350549579085238404458224266764650265238451356341358429261004736982177169561166102370150216407025558831330160529535406360967871951733582561184230082479615845907576285505444289865751951348277913829670463467064539527986961795111673844428866552806241778038906441614130267804820303555782357444747392899469454240070129363793523571091021159706449420334476731556136598480890245700881569004722827228930070659842517449283564306689405512939571550861722928215496715758177494515012379308949942503024045094043945299560187639456416306897177071477908508426583191800620828194571206343910247269705120576552879550611808234038131276285547427135383107631402133645724582676686883601183436378566635682837502432546661879655603227328100100501962879723654807386010286543535992063822504943891542274440215200179520505034781288221956329997745553971490696351597440583638094982227727080441602577800120229735367697500502769190332471658155776066905759851841288171217657528083658316384425638638128867144629893863332988345802599300677914550646679551176528082788543806126794840182949034137296493144718058342385368888353853141372259796631731019145030794187302790556590689290075921373655904463279690040848207654769182523168429163003963949624659090167294539909905113682613940229983096945151502142839508772163924523158590979151182822788204189342415022706018451150190849481870393713930620153074624742127789829301661617352951805612871185612604575358080448427461128832100096157891788459548474491007412493038263013673198935337466612873170927061587609341189344689262202032447074714657781708594909521505853868266541739044581161207222773794793527248634359631479279785122390080185321765364497712315681781534554799134265751491818886437279970832212392795746748604364476046384153422804449931547779420874932213215740282114394400689505166125119447684927172174849669424452070762132271433601379878348427041547652979111738070195313118339070618013917147974716010072797427827335041494042634366184309459117537420085587531201840921704854959499818718790842718709049624088833436260144803398994540643082352677787482430892770074852837697187884121423186217260490913127959675443705166089329947314041405892804619568510219359366959220506295073086925016980656834180093222927643633916353470562741801166471515426278006560721690876855981332606595970433857605647651566388168468239975667371585356922394986325670179242442145801084234560271339313301168636203037716665241954954318737472957939710338053772096431888965013182752097633332196380770817672069879936763233505969408648131560982121236641051026091570140314289175972284518546147620876224402609762635737828749160829638424682964581280474794638952392676811117253304317759804952691281784079701687749175102722631884647125074007810052518830583399718383718959313644843855793626525552926446603952931940045459672374061952086674551015720194479588820710459087953903774218453880522708141997090771930647750009980593739206095920341127222893036273433396571257964094753211289905352078527954841738041216350021410879049314231471773034516827858318165402267597079924478881206711254812889547488886230144562636931317816798352435668895570823188400875787453608869241033117779575318840046750843307644335042186036576872414498938132091889659047954545535471110242090069167548113853960676450231275760641242353369463840780356599653343707087222612295960044502008535996249390728025904427318466524747281254485891505654496549020410622647818342777047472453317025315041707398219123033144228779732993784931324465021843845416677373024778280811815164344472709628336560576922561897174204863176476848970164663960330651061524961770991411704507342494391498173885976561006695211498854512281088735277444890162074183891956489518279589889370418571465141791264263982261412799441765362070420403781687376266312974565396403556062450562717125184569625792219746912675475746344814875883583057364474138447843802634664412843205965551698737508613967890486771407168917605610737880994002254078468086483766435499850750694347113080284932982405556731862050763732855219217491307163100773754804856369090115777109598315578280965514532421445863164857579802430827997453682509967349478649666853737674688695489106339984244521870136778702302613006714185335326093591550555247125245273250894997340911376459158654682586950363234811848468469066395485057585930833075781135664566169356013783017738852909099673042157372910560147222899529349316909958178894708386501578194342468023128645325346433306687402480422246178055297454537379826020112776942704078269788233100926042217367414211360702167954586367197698074057319127988496475419232950213154614279486879015038032191371698008277890587049737552071117363216529665085742874706906886825410167871114807009389885049062647117785563484019818693627700424805482467885235535781394489243957400729149046098023256921567225954098510263579269006536302004281465111199793608200565884844474629410803703638650425863424914584559324785554706015552333847496087790074287129523477789937466604998355682066604020417334671897932076655810373406229788790461713631111057265969264198640878571610299115122017786574620760220707858790669297270838047702372904290468364908990054907769160367875749919047688868868166192987071830439344671009215365944387683099916222831271846652635621762004763180817821662941186379191794267953002062041195588219503854108565994740976150333293648881971267712752697814262500310937612510855221213867273479335630006588155238781209396206353449149989932865752630927454418325008277873359564240273347314344916031404548156164508183104916694173102198735428546426402914989686802093222762550773398456853371768047849741555083406550673198108156012496455276875893744560376483018460102854711381528944169531525067458561244050440026132296176555735634313048544996491264

/-- Precomputed intermediate value keyCxA of one concrete MT seeding (see the counterexample evaluations below). -/
def keyCxA : List ℕ := [369232282, 2368192584]

/-- Precomputed intermediate value i1CxA of one concrete MT seeding (see the counterexample evaluations below). -/
def i1CxA : ℕ := 2

/-- Precomputed intermediate value mt1CxA of one concrete MT seeding (see the counterexample evaluations below). -/
def mt1CxA : ℕ := 62257936669563757636069591837725757998677354280839879005638588964543247089196678929299900945163313626608002401585105962499761105924142573523477919910695730187164243099875611799647589577859120396164420898764982772211708812672449009905344007409837197179838415760732172392110723080868197776976919325319198189104988036373166115803432602367588673275582596161533822417514731164809608231651665877255629329787745870741487131278445066521776456843027496404295279481165253917284896270367112868364723767740440009923680341552320326882412175759982702254812940717904280722763955326823531364351417937733610624702680409494205423309514966848389109039478003688338029040767891307667517707727568618260420512753943869153595485109819626555601926480203966739766331136542888506588808172422767007726799182568994648642957866566586625289690165402335508146836801023711507270088561463520266325909598864036324544135204211907519017317501574375914282646992029538816915345653040923956748965307712746510861148422800710101736407053581087474848104704759083363130054792775348795424849270284097937090394601304600794701994396859874537182912729573784939612998643352195957668482423224382102997778670713042128823316873352536825459891435520867081406864443840794907526089535452810841652349708861617316550393235356458627803048887453462631032479840853049083395482860974772263302928596023045663965559996764602539170081183583748365312274803872323608455634064596889988786133020900770220899711458524521542835036968714059318350914368296312295664843925404538174059506649298809767177925954505743523467075945189521417811069506901511569937793202741519143846698551422524226172750813219135250114709395532576091382116268379389742266961383027331454769103885406736285567710043006151365307540368448481236391682378067944550699235028080566210208910820305839747790608831723911041727489273823954308191845964799803195170926247906393387435891646733966500544375560329584128088616386657661837413541254781398327693586405206214623018361880472117830719014625389864206969460837079363480365481862077012378225642678250490400826329548066360260208138437902819557834282890523103945651301409592747453419796919732919835372314595607009826256847443652409329749856076707030548269387125297914998344036766329629889237960377695027236001474732283462591647829485340421697190313439039049260014487035908029495899594768986021245846090829730876408967468468019999067263729905210650116263181132461170167124785068176402592532733612965388290700689015742588868597149464067979266175043154519861742052910150767610307833874990905354865165344576979734683214857446295289326986679200827640288448960580553610325870697845205691170444842685247257614935913202128132376726012852668773888976791648926999699046353147815607093265940233427559746187388676553611524630712500451650463672322651016437775253431660708005341537301025682741531022168376404472014172834084422686475571691813962344560235278161519394265120417444808933159494216547279503315325273468139852037184157489468797648875790335085861505350089848819165263585916789823842789277822129156669030634917650402120236972055947760355871524880784253842746908184700614991258224298549048556360730836286685029065336321775046564114354408366387701213662795155586472280595200575330886512232343729016949323206684689200551864006934846683379000048361744058077384441601791283848019315277384974694149684720755300399670933529193984454913412655472685923262439897472340539438069447400003249856685743744146660385022223382557038303542191279717542210512105155282634864918137906224737652764621718299357629295226812319979147846496897133140786294078178036690113621363820494514037618244965742076640376432176968621228330144392431036002415732494516361375670033068362333164175870273129595585739139741635897207010143332833146252770629331770883735920549683913264106454633914652137027097692533529559945038042856532724219424684217007246488843909995089198438749762227277689509811610760727781270694239825393121459204826202149585793380879740848894768198665656523756356982119674814604866151372781857829386552197743003445083355472110390617774581813090939213164286568948568727971787435890480430947332096751060491319839751218579355253251789176998065329874085204253714635186558695663543479313098678062898670143316881367544648074989740914266365109492100764112432389578144160407021304558644246385689540363692667556122789895260399151086756876495076251012058005685861777418115271853242483290828687940753632204018583692254021438690713542867637436958172555498840151939096383092311413245770769170868485349101537593544343856249082457857903516910290374963019927471676477620501146094747573746718989699653634772349290035004405960055332752989351638235048759783244816378571914230903615841821618667307875998413235452138071276694208683548539091270820830700099252742189750728829108262814390793760772580700442989584202497245264175799992539456606299060075697441498767308079918994234587585676245771643116862548545251886692796166449314729756784552734417076921267981321290765756840444314606211899299700857911108854907041533229252421491714772609087732621695172443434586164532408018538797853022595209612258801089172187358960968326401734106405253459292610055797174050982083413196913761269653656301761339643402309758585108069188320936653962875643602923401061607791696378703005941277197096709468007186501585701022442484853818449767056467261972246203327484618661135437497347348337230264169358080154105184602786213192220357177487611761216102839106432378895073687920377268037990594615262830064885121399969554829114930026800490394864087033454676499698476798492624579578228317733701685107236514773720421881898999522866483826499968077908194379503358104202756649302929207817954182071192007273981320244028693600844343339228967382408758057902660655922340546113369289568773877223635660531513929512058874055894089346400558706767410850361090849960158682611648503620734715927920232852824164763002988122421913040228629941734520323314543641272359526781135971376846481106044055638210413290499780680408032807674655746026011515022294708840821661978277782

/-- Precomputed intermediate value mt2CxA of one concrete MT seeding (see the counterexample evaluations below). -/
def mt2CxA : ℕ := 68669672752666764864208196683616162679734616493624973937563543764134359567712023841689559806122948727808397481840474363845283639765357109979126932626887934778354994213719742184343716368353499563813756894767878864522388536305264219646701658364183671851581434710674668966808461484363928849862154221759836456732255542807115598043755885732624050639891582999930104879780695143438046452398574484951565850249844422014531658931945014485116260810366735573209248007138652955127548644650426329620608183731364559112404373746492869740415406347053214182702120031183685475838394928346405126878422633792659645023298395170826980964673464928900917830139413484349747523080052488670641974372096055222805113199049062116509958993697086613823662760661494068450198592062267161886387399668916958743076907508792818694371113441586341821990343890520538954649977033727813078370644397644197424258348900845875624341161449943695805915682795591081517954733918539745614766153113957124548683901449262776460861879017053809035058720774015249196987714471442622573082165287190257965006781426915785207702848013015741649418340851090346443344997463586315178678914637206486948521067772625845801423538613522332008990719179459423500484039390478590224481606708312952366454148180830882951855468823588449480690153997837787717937722905394864673353827795509349149207812394691798733873817169898416377333471850071730266040242712184327480711828848644458548731059121717290602281321475872309969433080520078838558507667961803667751958366442586430707377913291499403311176017227715443467418415849838435863490869181217560647368466219054063120469189915214496086194436867326004073585692948620375793368671599476114390288699744697234331449511852316676280144471245731961372059220925791302128017941006699036113717497634353374515437993062697400005202136597462258972508531217914041165218821369987872847612190957739982697088937191282354857034269420136499004499931473472694820715316676019834617685922124879690625853423437404833410858725255247033238312411335153177819838974361580968365089378907085969138755118285851319686983503916095826116312471340705598526567126496224845008015584078440655562011789954032161244347349635792173933049905453390648140089352886847109211129076843013166805953980054296581836501083614247136761645915188527033283855757744803682331924390465243339252590993539620254456229196620419611311062397139074774484502570265054964713743235156389797516597509021967965745421325097614078493626993900037908348359378270638842365268615807617175531061117144029748706815203339657607478367681444461969508545071232523770514084382754023879257773773285112164101524118925274560996325893884877491420898472063013364019458932458188964365165486990783702437745026741128655692614459224569579966814369125143110271360220909565791887264834654477850466539516615227502744221288449853175403474307042664632822868812053180845884751778844816957273725609905138026743806631649868230453863813917337329783595816469611269496900130984796406081989593752300989195160484618976007833895461456357407245695313655449930945256796667892738704052747008964668915181009003869029083321555040578604324404749390269619172538950851490501893276843514807184282678854723119317043316831569254683574975198292009628129340974112841891915844460111505180738175328032975758100244766545530798132933331015235129902216322341137993121256710659936385894512555602974598137039987855836982931252222571023938174068490696508577138908716491813198129625090346598359209433255543121569424523782315713523210547210285341946902047761893389723059015880774458683184582070979558116846758041182597363761484009633127095065778707520612953655375020311702411369481445690695593294796926361092741917067059700875101371356411126188231697819895838154230207928668301553743054918978922718805972209241673537359155762048596029932887808065283346943589940726087996414127249919992774539175979175171250290048011113784161141714101336496370989705084138962487919974957316178881405975226862775372613288277876974492670542741789811382979583275053449408152980150258294145649098356667601312494083091918144174303557779920159072762816161461543156712644436100565669004139729279950299383398544913926871224156386664791713626978612938875269280047917738463413426147548444988543694963534301667694995982859392430645939106666090663147156933680854945055240644158111315857069290237529521930322577731185459198207346663530016078419660157169673816471489803648545874529684697208987882912774191817441081330899727595891089412690672070307038928253923953267706447902189141674473570509769022298972723140686926130891507037202443426420666337201800028327457127654072885827420144368705862476265030295775487128963800737635204845425074483135157381508636322049674317156008624028477626818407775355555194456205535668961263910875911982820529026803352351099780360666310263835425477531960759243817043096486121447794389771043881223642994074228591898879200115933433731559986358332701859819005005351314053732569030406620861019606686969192759839091449648023813540778416228800487069219157466812693029804062737342348639408726560007676894004608157891713789793433428341273040847059010929994930806452023799319735238651314644115690932009828371463072364965547767606724848749065757589256016410974801433476497084935674517255892422291900288777018303695657305150797093830548421439015554329873658631211404808794563042405306875957967342597981343306982401207882287423245607165263415071185684674773094973075496940068663645426758539577007327140565320087810983517598538838406764658352142466798519483996667576349630455011403367630692211331558559503127300704582259328938750187990139437840000345830871867100329087813937145235927421423703065743658975546862160410401147415546643415970140442444953539106642042877343689257860938223603423272574910074356514253083536556099873796547537391569000727442080669943234674286023705149931071711530762146031792418068311475427240542340018266232765555059978183300201913267636057109088271610826692195569647554053864916019218502468282723920006284797650763402192150264432601578968404899173912403036434108

/-- Precomputed intermediate value mt3CxA of one concrete MT seeding (see the counterexample evaluations below). -/
def mt3CxA : ℕ := 68669672752666764864208196683616162679734616493624973937563543764134359567712023841689559806122948727808397481840474363845283639765357109979126932626887934778354994213719742184343716368353499563813756894767878864522388536305264219646701658364183671851581434710674668966808461484363928849862154221759836456732255542807115598043755885732624050639891582999930104879780695143438046452398574484951565850249844422014531658931945014485116260810366735573209248007138652955127548644650426329620608183731364559112404373746492869740415406347053214182702120031183685475838394928346405126878422633792659645023298395170826980964673464928900917830139413484349747523080052488670641974372096055222805113199049062116509958993697086613823662760661494068450198592062267161886387399668916958743076907508792818694371113441586341821990343890520538954649977033727813078370644397644197424258348900845875624341161449943695805915682795591081517954733918539745614766153113957124548683901449262776460861879017053809035058720774015249196987714471442622573082165287190257965006781426915785207702848013015741649418340851090346443344997463586315178678914637206486948521067772625845801423538613522332008990719179459423500484039390478590224481606708312952366454148180830882951855468823588449480690153997837787717937722905394864673353827795509349149207812394691798733873817169898416377333471850071730266040242712184327480711828848644458548731059121717290602281321475872309969433080520078838558507667961803667751958366442586430707377913291499403311176017227715443467418415849838435863490869181217560647368466219054063120469189915214496086194436867326004073585692948620375793368671599476114390288699744697234331449511852316676280144471245731961372059220925791302128017941006699036113717497634353374515437993062697400005202136597462258972508531217914041165218821369987872847612190957739982697088937191282354857034269420136499004499931473472694820715316676019834617685922124879690625853423437404833410858725255247033238312411335153177819838974361580968365089378907085969138755118285851319686983503916095826116312471340705598526567126496224845008015584078440655562011789954032161244347349635792173933049905453390648140089352886847109211129076843013166805953980054296581836501083614247136761645915188527033283855757744803682331924390465243339252590993539620254456229196620419611311062397139074774484502570265054964713743235156389797516597509021967965745421325097614078493626993900037908348359378270638842365268615807617175531061117144029748706815203339657607478367681444461969508545071232523770514084382754023879257773773285112164101524118925274560996325893884877491420898472063013364019458932458188964365165486990783702437745026741128655692614459224569579966814369125143110271360220909565791887264834654477850466539516615227502744221288449853175403474307042664632822868812053180845884751778844816957273725609905138026743806631649868230453863813917337329783595816469611269496900130984796406081989593752300989195160484618976007833895461456357407245695313655449930945256796667892738704052747008964668915181009003869029083321555040578604324404749390269619172538950851490501893276843514807184282678854723119317043316831569254683574975198292009628129340974112841891915844460111505180738175328032975758100244766545530798132933331015235129902216322341137993121256710659936385894512555602974598137039987855836982931252222571023938174068490696508577138908716491813198129625090346598359209433255543121569424523782315713523210547210285341946902047761893389723059015880774458683184582070979558116846758041182597363761484009633127095065778707520612953655375020311702411369481445690695593294796926361092741917067059700875101371356411126188231697819895838154230207928668301553743054918978922718805972209241673537359155762048596029932887808065283346943589940726087996414127249919992774539175979175171250290048011113784161141714101336496370989705084138962487919974957316178881405975226862775372613288277876974492670542741789811382979583275053449408152980150258294145649098356667601312494083091918144174303557779920159072762816161461543156712644436100565669004139729279950299383398544913926871224156386664791713626978612938875269280047917738463413426147548444988543694963534301667694995982859392430645939106666090663147156933680854945055240644158111315857069290237529521930322577731185459198207346663530016078419660157169673816471489803648545874529684697208987882912774191817441081330899727595891089412690672070307038928253923953267706447902189141674473570509769022298972723140686926130891507037202443426420666337201800028327457127654072885827420144368705862476265030295775487128963800737635204845425074483135157381508636322049674317156008624028477626818407775355555194456205535668961263910875911982820529026803352351099780360666310263835425477531960759243817043096486121447794389771043881223642994074228591898879200115933433731559986358332701859819005005351314053732569030406620861019606686969192759839091449648023813540778416228800487069219157466812693029804062737342348639408726560007676894004608157891713789793433428341273040847059010929994930806452023799319735238651314644115690932009828371463072364965547767606724848749065757589256016410974801433476497084935674517255892422291900288777018303695657305150797093830548421439015554329873658631211404808794563042405306875957967342597981343306982401207882287423245607165263415071185684674773094973075496940068663645426758539577007327140565320087810983517598538838406764658352142466798519483996667576349630455011403367630692211331558559503127300704582259328938750187990139437840000345830871867100329087813937145235927421423703065743658975546862160410401147415546643415970140442444953539106642042877343689257860938223603423272574910074356514253083536556099873796547537391569000727442080669943234674286023705149931071711530762146031792418068311475427240542340018266232765555059978183300201913267636057109088271610826692195569647554053864916019218502468282723920006284797650763402192150264432601578968404899173912402001395712

/-- Precomputed intermediate value keyCxB of one concrete MT seeding (see the counterexample evaluations below). -/
def keyCxB : List ℕ := [119816924, 1648698108]

/-- Precomputed intermediate value i1CxB of one concrete MT seeding (see the counterexample evaluations below). -/
def i1CxB : ℕ := 2

/-- Precomputed intermediate value mt1CxB of one concrete MT seeding (see the counterexample evaluations below). -/
def mt1CxB : ℕ := 28951235688601039312565672242656481574730696045999366192400143842336007312864792089877257180595269354677048591476484090752604442911985878425164790630921841449867372832358860529423258843891239910292749862496249224995831672890891789839132251068333722944698653920753711028083647137641134909856661588163690037396751271251687085146519819843608701241941205772970982861373890694790172759045171191674889215850523829066630275033547228298752613063562945155120740955876249007158351793495096770580208058057983435257843950878740034072252678211764108330942620920010892300570743222616774173849345966848031796334094424834652674979328657183226391203931963164170461549089839548694332325359424134054891518769310212090484363264112677358584020903139747511794753634960305939893530635781288441403042640373437353783185037966066233572330295250466619177715500869815860401471213357190171377499318852254322383007506322782659795273808649638942554010011590926986974684874949393706040627434545772154549533958731881370092804043872948737135671715299167595072624628102362127117973982759635977903754031289388444221089491148135290291949563786590295236394943877340891935431562749641700023360071492754547952526335541612767629957525719022327799187985387719028840529983712685742149251071925352362974756519442746213086899456586249822085808032766673828112499524585827701242499931294343575954723483003459357883405171876527152494295383288211261442582416427480458470937829126420542192973371780974720837778560849695774323929023336143557046202704398545177686815012318265970489859073216494148627709269912267828909070525113750915993091374577482022506061709001754592869605176120267728609322735772962146729108072558600798100278545216213143460634489186226946865707273059679001055918996665074676604299191279540883467378371204726677376511697433228234439270010125526360064053712889235943686745305912169779285189406349065495288011883832615785961090872905672306470979639746530408688437699567953081741801697856662862594823762296413860962813081486910483851601704893847726113122904186794508319657877095969661633698017998662580939721616238361545001464224947379776817590811963434157487348566278497936934748588707423808040138962331415360936699717582319737788988274070613246306150754273982254835056170710150201076770808453833449095190328257872944430786018775630979937472564985644245512225455720730139671450631142517270594295423834379460283226825533896844471715563990684330500348852706992509528456585322552550703503686312383155443658458082963082671951128798915970213010344806370019805852992263490139735267845254920638226147245972694161769010028517044250286662205876897477485895984228820804881846873562208166949213187077914743609475967282908984416205197959582880659958051221459622220313175522266239122031906772639962310216503743104986946996691873119624816748492472331785312898570595825264055108738604376970486098098606090961167785213021546296038499524784774879723399123067302178707258902508313350449706712435581781980663823460781343896006285197839255571359855631993656283165942644388847243698202834767277564292648497934846413120077243077929300512602251108432438592920527184137213245121299772209016759132855698743573478208187454928408105367287568610653560185310622164950989715504751914589371292350817360830973014142489560563259009171980797712658715148818497013258515791139240233847359433686891917586909449916229184347288070459165716567388306665810509136689871436983559782529183629830122256114386813007090275075200789070128223751206979917856307528828112784844094378828642551919528597860495225038700856933636098136000843006676381591352372015767854853957314488294156322178987144587733485647306149861719287131468795586897922424469568359197848765756789772587149766724437547805056788543125658745140103006662801252302711045726079637066510910082260845962288225109869618397647031430380490054953798463301244004925310738267638921799333925720713814525036098887573378032194970233744951897629960290377458355804450290225849420441568541447430348524091756875618714534425277004658373273384449937544832164606167477535033869811361745043651631194851799337591508192043669255783348212365758396235715269775505927147898009923161317672906937807283973141180676739534568263111559028111794324973013891790569041050225712264632198096204751676170717986874416928427796174006085068486458597542061244590277089760072535104031261081862476450941472058309344323064118592763546052203012896729160339815955282449608596198840701381545724007854275504028830387308835738638228866275145551765911798438155943684953984520721730308391332561627026763605443391354911431664758324316938210767158991434670111311716835738676383746857394174000401445523417211975144356205637731676212039057113019271132384171830148003052029803213713918438486188717452222352517661692029287550151958446208228160099464395825666564276824209570534223503698174436206926471444904201250415270551415694043995705526669441776177689130142524452101846289585325760612517064544871754457794959463458697051379207509726562947700355039770502355138459036815715729076189108201382091187861034786653090652495666680628916471955691164222210226677858124246876918843060218156560539510706747353348709136442612877946690887418969115683431168228123221432904745741327032153292810265351165738338436379949769944568001649177741389155928634664030193255330117988513308095915258645480260529288302582360370690262024851341533150370743025305451110673542080011939108927481484630259156487286707656448073561940640242804624651213013359109611847606444078578043499083892201924459601712596781500835501072908198835530381220268310843840332918200307317183454765900507191742631526901708721537293579906692736152859672872319433857386403697035410738650906878465082829152949907977844806628845322070191651440832130062032605767173347559714380067760717690004188441472398450564821626638206557857819239489500218554133500812972656516646678434987214988416161797290889830548423568452231556339680052388580975834878596700524822251224595077331084307212896612553888323766154230734915385590442698912366179769507950280413797

/-- Precomputed intermediate value mt2CxB of one concrete MT seeding (see the counterexample evaluations below). -/
def mt2CxB : ℕ := 35985021371174819742989706029542281354302420432465418782007779412792688185937722983509420945848946006344125346706909417910779165496217279481345192887225919791623888331175726301679509624904401454600578996905486332547785235164932531870391067977211185561792415147184159223416934766719596358610098117135030852245742794349649919591189443279873587251535344930841733124533274303599684023689384975247043411620490966190485745888198529018657800506394573803198273562781574003234850164010642061414815607452030313837278715776928753059739840560023271449282401593214097256217118330955136112208263061081942882832736407678101134012013301459762636706564713473149802134687741686972799617537434691814620224557187008015338773699038701807095718846569183341273879933770723328470323663319313667480286591156654895441549234528503576011331857525268329017216715877433585763209914565895578419196699678922736985238567229508269732817559600510315548767186123507721083036165329590531263572607053647644030347486605435418955233883062707607169106669330891780580742702648607436333410675286308505934959291510514968084731971046620831999108404700189843621594558235334812764701192109352208815009983524757051837305466949428380771935953201305748384161622970908301019877768376247945584158256786407884300039933436201375686945672681704300918022140921101709269694461703720721370025793565465375935710277930214336650895579073375456241815278648901421097718762772264681621971868418692609032764629098565649751057843652223251395074010044143671919749146949229979937724760645763756394898750739955949572686317069453277122991078223472064703551028525053463772375972972716164265495804296641333044655874137849269743165441570960553960739722261135059162200805978636389897758043725182634998380741160817407962472335587470981315328882531700740740636204834784336135177310504881888693023830200836547649281443536147716520718861515798114403055397944276937044168094124667666799661376361323024033532576748510536599423960283311755335005874857861050085011197680399784054333345618124514857962619255187602764097445282455876451577398361585609245485729454111201771708674427711682940476032129533698349552167963552407949393627620249590841553153810643303348638699509192592801423622697286517824474425681582961739970525676542608233224704213688280828641315026099491394305558385590423089184784304744064944731480199803422629812299881368420616796897648157118858534769896101414919637744871125740967739035882284479517372287587232539451183345725813258767850729567049553196155775461948088679966559565696239438392179568903548737782024871305218929325976628232645633016613687706383669802449932018869844266337085512667244387176928671266083770928468924547850173360149333131135771233667487893897614388820826988539608959547301227635466890485202667444631137236888495556895312763445830254700708345976627218845430914653996516155690884008374880240273895651590650476344794268460838057447222097306360331308246340619154284934034345506909898184379934312480989587439105675580163059484177671611257088599658695479428531046862972871680474952047888824282003271458325832893321937224086160253331608996545895885690658678714372763670677419022040290516433529617235326767516824099196426666585298399232533989735898719439838381027289829443486798476693686351759100459831949497079115927861777809101913607082157029652165833285415816159890332521733577549832110148499679355878816538915278055633928239044672518916334427792064889678412198321097142118563419170675793643255425901445729668355104970680230788090937792084441647294918358006621177452240462022976937657793956097056061126968840252195634135055355757541181620767840561379165683528561324420286973820326945550587117311634048327114250325742127154544266209871059272661914795906504632278644566300866461777319547907403621807733627146857607413149972214873979458175784083161730795649829590768354665262048160989287376138913679517046974117480589741868440785540246378954083040914456840353324768014985784238569635417232242547372168094264180016916424562753858153772991432863604081135394053038145853113688004990284709729789504890547138031224528823821040165395564325245900601263863899357027353340393041642823532394451214706374805774353249756647823713061023443707456957716081476107605944614298506111899847038446527265818483147373934403453271255198722949563152195566657755781771996148585344463109115526000590868818668821616756856871507316103536311220668976479017722064479365336374633896203111167346217697238874981066163192754330282860260254497183275570048184270267028520909326786872625071458344605379656534552760228644411493496592501011230070334879583461935103557598021283546402783671952581998707234764416253264576556415442278115909891798358599833758036334559206530037286277029089404071345499047570679212068828553128395840991133954544732911168359332450754133921230657530448929524055535462729803607394184412924387433363680174092689609053395997230725357488450650653324017281575852615429687090708273542865257521397719749259867065311721216152353651332909950602463161086737768527833955663471896170043878647030050213309470219307839396610635877204418393769089232742517943658775306123159775123566694712854380424430081029226676322049486698086869661736895267337544463940908103299284336050575547051665923561630487889057303164269846756664087989595486637457612971238292549676734327698646918811898137572122225892745927885000573333831296135197597537575704898161933462753169560899465273462210028704597004552136979682321463000267353688919114241257624970572719112048949728171111677072997408871820361704643843713674189454642864131304359681511252664437922413730624223885540080143943395610357547482671533519516945162939464171766486270505164560667163629779495819933186687983998816385615195047445085342641001682270954279984269355873653964710967740791561947254347959548713494053833335947255208608715000284389539068013103658492210122212299749098886234677356077854759414474740903906080312398270444720726149167247323550709293827517919743242628009734799332091755854328061577161602766757270161841819748043973903972211670626128

/-- Precomputed intermediate value mt3CxB of one concrete MT seeding (see the counterexample evaluations below). -/
def mt3CxB : ℕ := 35985021371174819742989706029542281354302420432465418782007779412792688185937722983509420945848946006344125346706909417910779165496217279481345192887225919791623888331175726301679509624904401454600578996905486332547785235164932531870391067977211185561792415147184159223416934766719596358610098117135030852245742794349649919591189443279873587251535344930841733124533274303599684023689384975247043411620490966190485745888198529018657800506394573803198273562781574003234850164010642061414815607452030313837278715776928753059739840560023271449282401593214097256217118330955136112208263061081942882832736407678101134012013301459762636706564713473149802134687741686972799617537434691814620224557187008015338773699038701807095718846569183341273879933770723328470323663319313667480286591156654895441549234528503576011331857525268329017216715877433585763209914565895578419196699678922736985238567229508269732817559600510315548767186123507721083036165329590531263572607053647644030347486605435418955233883062707607169106669330891780580742702648607436333410675286308505934959291510514968084731971046620831999108404700189843621594558235334812764701192109352208815009983524757051837305466949428380771935953201305748384161622970908301019877768376247945584158256786407884300039933436201375686945672681704300918022140921101709269694461703720721370025793565465375935710277930214336650895579073375456241815278648901421097718762772264681621971868418692609032764629098565649751057843652223251395074010044143671919749146949229979937724760645763756394898750739955949572686317069453277122991078223472064703551028525053463772375972972716164265495804296641333044655874137849269743165441570960553960739722261135059162200805978636389897758043725182634998380741160817407962472335587470981315328882531700740740636204834784336135177310504881888693023830200836547649281443536147716520718861515798114403055397944276937044168094124667666799661376361323024033532576748510536599423960283311755335005874857861050085011197680399784054333345618124514857962619255187602764097445282455876451577398361585609245485729454111201771708674427711682940476032129533698349552167963552407949393627620249590841553153810643303348638699509192592801423622697286517824474425681582961739970525676542608233224704213688280828641315026099491394305558385590423089184784304744064944731480199803422629812299881368420616796897648157118858534769896101414919637744871125740967739035882284479517372287587232539451183345725813258767850729567049553196155775461948088679966559565696239438392179568903548737782024871305218929325976628232645633016613687706383669802449932018869844266337085512667244387176928671266083770928468924547850173360149333131135771233667487893897614388820826988539608959547301227635466890485202667444631137236888495556895312763445830254700708345976627218845430914653996516155690884008374880240273895651590650476344794268460838057447222097306360331308246340619154284934034345506909898184379934312480989587439105675580163059484177671611257088599658695479428531046862972871680474952047888824282003271458325832893321937224086160253331608996545895885690658678714372763670677419022040290516433529617235326767516824099196426666585298399232533989735898719439838381027289829443486798476693686351759100459831949497079115927861777809101913607082157029652165833285415816159890332521733577549832110148499679355878816538915278055633928239044672518916334427792064889678412198321097142118563419170675793643255425901445729668355104970680230788090937792084441647294918358006621177452240462022976937657793956097056061126968840252195634135055355757541181620767840561379165683528561324420286973820326945550587117311634048327114250325742127154544266209871059272661914795906504632278644566300866461777319547907403621807733627146857607413149972214873979458175784083161730795649829590768354665262048160989287376138913679517046974117480589741868440785540246378954083040914456840353324768014985784238569635417232242547372168094264180016916424562753858153772991432863604081135394053038145853113688004990284709729789504890547138031224528823821040165395564325245900601263863899357027353340393041642823532394451214706374805774353249756647823713061023443707456957716081476107605944614298506111899847038446527265818483147373934403453271255198722949563152195566657755781771996148585344463109115526000590868818668821616756856871507316103536311220668976479017722064479365336374633896203111167346217697238874981066163192754330282860260254497183275570048184270267028520909326786872625071458344605379656534552760228644411493496592501011230070334879583461935103557598021283546402783671952581998707234764416253264576556415442278115909891798358599833758036334559206530037286277029089404071345499047570679212068828553128395840991133954544732911168359332450754133921230657530448929524055535462729803607394184412924387433363680174092689609053395997230725357488450650653324017281575852615429687090708273542865257521397719749259867065311721216152353651332909950602463161086737768527833955663471896170043878647030050213309470219307839396610635877204418393769089232742517943658775306123159775123566694712854380424430081029226676322049486698086869661736895267337544463940908103299284336050575547051665923561630487889057303164269846756664087989595486637457612971238292549676734327698646918811898137572122225892745927885000573333831296135197597537575704898161933462753169560899465273462210028704597004552136979682321463000267353688919114241257624970572719112048949728171111677072997408871820361704643843713674189454642864131304359681511252664437922413730624223885540080143943395610357547482671533519516945162939464171766486270505164560667163629779495819933186687983998816385615195047445085342641001682270954279984269355873653964710967740791561947254347959548713494053833335947255208608715000284389539068013103658492210122212299749098886234677356077854759414474740903906080312398270444720726149167247323550709293827517919743242628009734799332091755854328061577161602766757270161841819748043973903972212150370304
set_option maxRecDepth 100000

/-- Evaluation of the constant first phase of init_by_array. -/
theorem initG_eval : initGenrand 19650218 = mtM0 := by decide

/-- Evaluation of mtInit at the seed of the pair (sari, tono) with
secret match-secret and nonce 0 (split into bounded reduction
chunks). -/
theorem mtInit_cx5 : mtInit 2244113406136807654 = ⟨mt3Cx5, 624⟩ := by
  have hkey : seedKey 2244113406136807654 = keyCx5 := by decide
  have h1 : ibaAux1 624 1 0 keyCx5 mtM0 = (mt1Cx5, i1Cx5) := by decide
  have h2 : ibaAux2 623 i1Cx5 mt1Cx5 = mt2Cx5 := by decide
  have h3 : mtSet mt2Cx5 0 2147483648 = mt3Cx5 := by decide
  have hmax : max 624 (keyCx5.length) = 624 := by decide
  simp only [mtInit, initByArray, hkey, hmax, initG_eval, h1, h2, h3]

/-- Evaluation of mtInit at the seed of the pair (budi, sari) with
secret A and nonce 0. -/
theorem mtInit_cxA : mtInit 10171309699278965146 = ⟨mt3CxA, 624⟩ := by
  have hkey : seedKey 10171309699278965146 = keyCxA := by decide
  have h1 : ibaAux1 624 1 0 keyCxA mtM0 = (mt1CxA, i1CxA) := by decide
  have h2 : ibaAux2 623 i1CxA mt1CxA = mt2CxA := by decide
  have h3 : mtSet mt2CxA 0 2147483648 = mt3CxA := by decide
  have hmax : max 624 (keyCxA.length) = 624 := by decide
  simp only [mtInit, initByArray, hkey, hmax, initG_eval, h1, h2, h3]

/-- Evaluation of mtInit at the seed of the pair (budi, sari) with
secret B and nonce 0. -/
theorem mtInit_cxB : mtInit 7081104454956892892 = ⟨mt3CxB, 624⟩ := by
  have hkey : seedKey 7081104454956892892 = keyCxB := by decide
  have h1 : ibaAux1 624 1 0 keyCxB mtM0 = (mt1CxB, i1CxB) := by decide
  have h2 : ibaAux2 623 i1CxB mt1CxB = mt2CxB := by decide
  have h3 : mtSet mt2CxB 0 2147483648 = mt3CxB := by decide
  have hmax : max 624 (keyCxB.length) = 624 := by decide
  simp only [mtInit, initByArray, hkey, hmax, initG_eval, h1, h2, h3]

theorem lexLt_asymm : ∀ as bs : List Char, lexLt as bs = true → lexLt bs as = false
  | [], [] => by simp [lexLt]
  | [], _ :: _ => by intro h; simp [lexLt]
  | _ :: _, [] => by simp [lexLt]
  | a :: as, b :: bs => by
    intro h
    simp only [lexLt] at h ⊢
    rcases Nat.lt_trichotomy a.toNat b.toNat with hlt | heq | hgt
    · rw [if_neg (by omega), if_pos hlt]
    · rw [if_neg (by omega), if_neg (by omega)] at h ⊢
      exact lexLt_asymm as bs h
    · rw [if_neg (by omega), if_pos hgt] at h
      exact absurd h (by simp)

theorem lexLt_conn : ∀ as bs : List Char, lexLt as bs = false → lexLt bs as = false → as = bs
  | [], [] => by intro h h2; rfl
  | [], _ :: _ => by intro h h2; simp [lexLt] at h
  | _ :: _, [] => by intro h h2; simp [lexLt] at h2
  | a :: as, b :: bs => by
    intro h h2
    rcases Nat.lt_trichotomy a.toNat b.toNat with hlt | heq | hgt
    · simp only [lexLt, if_pos hlt] at h
      exact absurd h (by simp)
    · have hab : a = b := Char.ext (UInt32.ext heq)
      simp only [lexLt, if_neg (by omega : ¬ a.toNat < b.toNat),
        if_neg (by omega : ¬ b.toNat < a.toNat)] at h h2
      rw [hab, lexLt_conn as bs h h2]
    · simp only [lexLt, if_pos hgt] at h2
      exact absurd h2 (by simp)

theorem pair_key_comm (a b : String) : _pair_key a b = _pair_key b a := by
  unfold _pair_key pyLe
  cases h1 : lexLt (pyLower (pyStrip b)).data (pyLower (pyStrip a)).data with
  | false =>
    cases h2 : lexLt (pyLower (pyStrip a)).data (pyLower (pyStrip b)).data with
    | false =>
      have hd : (pyLower (pyStrip a)).data = (pyLower (pyStrip b)).data := lexLt_conn _ _ h2 h1
      have hs : pyLower (pyStrip a) = pyLower (pyStrip b) := by
        cases hp : pyLower (pyStrip a)
        cases hq : pyLower (pyStrip b)
        rw [hp, hq] at hd
        exact congrArg String.mk hd
      simp [hs]
    | true => simp [h1, h2]
  | true =>
    cases h2 : lexLt (pyLower (pyStrip a)).data (pyLower (pyStrip b)).data with
    | false => simp [h1, h2]
    | true =>
      have := lexLt_asymm _ _ h1
      rw [this] at h2
      exact absurd h2 (by simp)

/-- Rejection sampling always lands strictly below its bound (on fuel
exhaustion the default 0 also lies below any positive bound). -/
theorem randbelowAux_lt (n : ℕ) (hn : 1 ≤ n) : ∀ (f : ℕ) (g : MTState), (randbelowAux n f g).1 < n := by
  intro f
  induction f with
  | zero => intro g; simpa [randbelowAux] using hn
  | succ f ih =>
    intro g
    simp only [randbelowAux]
    split_ifs with h
    · exact h
    · exact ih _

/-- randint(a, b) lies in [a, b] for a ≤ b. -/
theorem randint_mem (a b : ℕ) (hab : a ≤ b) (g : MTState) :
    a ≤ (randint a b g).1 ∧ (randint a b g).1 ≤ b := by
  have h := randbelowAux_lt (b - a + 1) (by omega) rejFuel g
  simp only [randint, randbelow]
  omega

/-- _clamp returns a value between its bounds whenever lo ≤ hi. -/
theorem clamp_bounds (n lo hi : ℤ) (h : lo ≤ hi) : lo ≤ _clamp n lo hi ∧ _clamp n lo hi ≤ hi := by
  unfold _clamp
  exact ⟨le_max_left lo _, max_le h (min_le_left _ _)⟩

/-- Score field of a trace is definitionally the clamped sum of base
and bonus. -/
theorem trace_score_eq (ab : String × String) (s : ℕ) (g : MTState) :
    (computeTraceRng ab s g).score =
      _clamp ((computeTraceRng ab s g).base + (computeTraceRng ab s g).bonus) 1 100 := rfl

/-- Bonus field of a trace is the sum of its four recorded
contributions. -/
theorem trace_bonus_eq (ab : String × String) (s : ℕ) (g : MTState) :
    (computeTraceRng ab s g).bonus =
      (computeTraceRng ab s g).simB + (computeTraceRng ab s g).vowelAdj +
        (computeTraceRng ab s g).add1 - (computeTraceRng ab s g).sub1 := by
  simp only [computeTraceRng, mkTrace]

/-- Score of one evaluation is the clamp of base plus bonus, hence in
[1, 100]. -/
theorem traceRng_score_range (ab : String × String) (s : ℕ) (g : MTState) :
    1 ≤ (computeTraceRng ab s g).score ∧ (computeTraceRng ab s g).score ≤ 100 := by
  rw [trace_score_eq]
  exact clamp_bounds _ 1 100 (by norm_num)

/-- C1: Scoring is symmetric in the two names: for every secret
string, every nonce n and all input strings a and b,
compute_match(secret, a, b, n) equals compute_match(secret, b, a, n)
as a whole MatchResult (score, label, vibe, reasons, greens and reds
all identical), because the pair key is the order-independent
(min, max) of the lower-cased names. -/
theorem compute_match_symmetric (secret a b : String) (n : ℕ) :
    compute_match secret a b n = compute_match secret b a n ∧
      _pair_key (_clean a) (_clean b) = _pair_key (_clean b) (_clean a) := by
  constructor
  · unfold compute_match computeTrace
    rw [pair_key_comm]
  · exact pair_key_comm _ _

/-- C2: For every secret, every pair of input name strings (including
adversarial ones) and every nonce, the score field of the MatchResult
returned by compute_match is an integer in [1, 100]. -/
theorem compute_match_score_range (secret n1 n2 : String) (nonce : ℕ) :
    1 ≤ (compute_match secret n1 n2 nonce).score ∧
      (compute_match secret n1 n2 nonce).score ≤ 100 :=
  traceRng_score_range (_pair_key (_clean n1) (_clean n2))
    (_stable_int secret
      [(_pair_key (_clean n1) (_clean n2)).1, (_pair_key (_clean n1) (_clean n2)).2, toString nonce])
    (mtInit (_stable_int secret
      [(_pair_key (_clean n1) (_clean n2)).1, (_pair_key (_clean n1) (_clean n2)).2, toString nonce]))

/-- Hex character values are nibbles. -/
theorem hexVal_lt (c : Char) : hexVal c < 16 := by
  simp only [hexVal]
  split_ifs <;> omega

/-- The hex-parsing fold grows by at most a factor 16 per character. -/
theorem parseHexAux_lt : ∀ (l : List Char) (acc : ℕ),
    List.foldl (fun acc c => acc * 16 + hexVal c) acc l < (acc + 1) * 16 ^ l.length := by
  intro l
  induction l with
  | nil => intro acc; simp
  | cons c t ih =>
    intro acc
    have h1 := ih (acc * 16 + hexVal c)
    have h2 := hexVal_lt c
    calc List.foldl (fun acc c => acc * 16 + hexVal c) (acc * 16 + hexVal c) t
        < (acc * 16 + hexVal c + 1) * 16 ^ t.length := h1
      _ ≤ (acc + 1) * 16 ^ (t.length + 1) := by ring_nf; nlinarith [pow_pos (by norm_num : 0 < 16) t.length]
      _ = (acc + 1) * 16 ^ (c :: t).length := by simp

/-- parseHex of at most 16 hex characters is below 2 ^ 64. -/
theorem parseHex_take16_lt (l : List Char) : parseHex (l.take 16) < 2 ^ 64 := by
  have h := parseHexAux_lt (l.take 16) 0
  have hlen : (l.take 16).length ≤ 16 := by
    simp [List.length_take]
  calc parseHex (l.take 16) < (0 + 1) * 16 ^ (l.take 16).length := h
    _ = 16 ^ (l.take 16).length := by ring
    _ ≤ 16 ^ 16 := Nat.pow_le_pow_right (by norm_num) hlen
    _ = 2 ^ 64 := by norm_num

/-- C3: the seed used by compute_match is the unsigned integer parsed
from the first 16 hexadecimal characters of the SHA-256 digest of the
byte string joining the lower-cased pair-key parts, the decimal nonce
and the secret with the delimiter; being a function of those inputs
it is reproducible, and it is always strictly below 2 ^ 64. -/
theorem seed_derivation (secret n1 n2 : String) (nonce : ℕ) (s : String) (ps : List String) :
    (computeTrace secret n1 n2 nonce).seed =
      _stable_int secret
        [(_pair_key (_clean n1) (_clean n2)).1, (_pair_key (_clean n1) (_clean n2)).2,
          toString nonce] ∧
    _stable_int s ps =
      parseHex ((bytesHex (sha256 (utf8Str
        (String.intercalate "|" (ps.map (fun p => pyLower (pyStrip p))) ++ "|" ++ s)))).take 16) ∧
    _stable_int s ps < 2 ^ 64 :=
  ⟨rfl, rfl, parseHex_take16_lt _⟩

/-- Base draw of a trace lies in [35, 92]. -/
theorem trace_base_range (ab : String × String) (s : ℕ) (g : MTState) :
    35 ≤ (computeTraceRng ab s g).base ∧ (computeTraceRng ab s g).base ≤ 92 := by
  have hm := randint_mem 35 92 (by norm_num) g
  have hb : (computeTraceRng ab s g).base = ((randint 35 92 g).1 : ℤ) := rfl
  rw [hb]
  exact ⟨by exact_mod_cast hm.1, by exact_mod_cast hm.2⟩

/-- First perturbation of a trace: either a drawn integer in [2, 7]
or 0 when the 0.12 gate fails. -/
theorem trace_add1_cases (ab : String × String) (s : ℕ) (g : MTState) :
    (2 ≤ (computeTraceRng ab s g).add1 ∧ (computeTraceRng ab s g).add1 ≤ 7) ∨
      (computeTraceRng ab s g).add1 = 0 := by
  simp only [computeTraceRng, mkTrace]
  split_ifs with h
  all_goals dsimp only
  · exact Or.inl ⟨by exact_mod_cast (randint_mem 2 7 (by norm_num) _).1,
      by exact_mod_cast (randint_mem 2 7 (by norm_num) _).2⟩
  · exact Or.inr rfl

/-- Second perturbation of a trace: either a drawn integer in [1, 5]
or 0 when the 0.10 gate fails. -/
theorem trace_sub1_cases (ab : String × String) (s : ℕ) (g : MTState) :
    (1 ≤ (computeTraceRng ab s g).sub1 ∧ (computeTraceRng ab s g).sub1 ≤ 5) ∨
      (computeTraceRng ab s g).sub1 = 0 := by
  simp only [computeTraceRng, mkTrace]
  split_ifs with h1 h2 h3
  all_goals dsimp only
  · exact Or.inl ⟨by exact_mod_cast (randint_mem 1 5 (by norm_num) _).1,
      by exact_mod_cast (randint_mem 1 5 (by norm_num) _).2⟩
  · exact Or.inr rfl
  · exact Or.inl ⟨by exact_mod_cast (randint_mem 1 5 (by norm_num) _).1,
      by exact_mod_cast (randint_mem 1 5 (by norm_num) _).2⟩
  · exact Or.inr rfl

/-- computeTrace unfolded to its pair-key, seed and generator
arguments. -/
theorem computeTrace_eq_rng (secret n1 n2 : String) (nonce : ℕ) :
    computeTrace secret n1 n2 nonce =
      computeTraceRng (_pair_key (_clean n1) (_clean n2))
        (_stable_int secret [(_pair_key (_clean n1) (_clean n2)).1,
          (_pair_key (_clean n1) (_clean n2)).2, toString nonce])
        (mtInit (_stable_int secret [(_pair_key (_clean n1) (_clean n2)).1,
          (_pair_key (_clean n1) (_clean n2)).2, toString nonce])) := rfl

/-- Similarity bonus of a trace is the clamped distinct-character
overlap formula. -/
theorem trace_simB_eq (ab : String × String) (s : ℕ) (g : MTState) :
    (computeTraceRng ab s g).simB =
      _clamp (((charSet (computeTraceRng ab s g).a ∩
        charSet (computeTraceRng ab s g).b).card : ℤ) - 6) (-3) 8 := rfl

/-- Vowel adjustment of a trace follows the 0.05 / 0.12 thresholds on
the exact binary64 vowel-ratio difference. -/
theorem trace_vowelAdj_eq (ab : String × String) (s : ℕ) (g : MTState) :
    (computeTraceRng ab s g).vowelAdj =
      (if vrF (computeTraceRng ab s g).a (computeTraceRng ab s g).b < c005
        then (5 : ℤ)
        else if vrF (computeTraceRng ab s g).a (computeTraceRng ab s g).b < c012
          then 2 else -1) := rfl

/-- C4: the score is composed in the fixed order the spec gives: a
base drawn uniformly from [35, 92] inclusive by the seeded generator;
plus a similarity bonus clamp(overlap - 6, -3, 8) where overlap is
the size of the intersection of the distinct-character sets of the
two lower-cased pair-key strings; plus 5 if the vowel-ratio
difference is below 0.05, plus 2 if it is below 0.12, otherwise
minus 1; then, gated on one further pseudo-random draw against 0.12,
a uniform integer in [2, 7] is added, and gated on another draw
against 0.10, a uniform integer in [1, 5] is subtracted (the recorded
perturbations are 0 when their gate fails); the final score is
clamp(base + total bonus, 1, 100). -/
theorem score_composition (secret n1 n2 : String) (nonce : ℕ) :
    (compute_match secret n1 n2 nonce).score = (computeTrace secret n1 n2 nonce).score ∧
    (computeTrace secret n1 n2 nonce).score =
      _clamp ((computeTrace secret n1 n2 nonce).base +
        (computeTrace secret n1 n2 nonce).bonus) 1 100 ∧
    (35 ≤ (computeTrace secret n1 n2 nonce).base ∧
      (computeTrace secret n1 n2 nonce).base ≤ 92) ∧
    (computeTrace secret n1 n2 nonce).simB =
      _clamp (((charSet (computeTrace secret n1 n2 nonce).a ∩
        charSet (computeTrace secret n1 n2 nonce).b).card : ℤ) - 6) (-3) 8 ∧
    (computeTrace secret n1 n2 nonce).vowelAdj =
      (if vrF (computeTrace secret n1 n2 nonce).a (computeTrace secret n1 n2 nonce).b < c005
        then (5 : ℤ)
        else if vrF (computeTrace secret n1 n2 nonce).a (computeTrace secret n1 n2 nonce).b < c012
          then 2 else -1) ∧
    (computeTrace secret n1 n2 nonce).bonus =
      (computeTrace secret n1 n2 nonce).simB + (computeTrace secret n1 n2 nonce).vowelAdj +
        (computeTrace secret n1 n2 nonce).add1 - (computeTrace secret n1 n2 nonce).sub1 ∧
    ((2 ≤ (computeTrace secret n1 n2 nonce).add1 ∧ (computeTrace secret n1 n2 nonce).add1 ≤ 7) ∨
      (computeTrace secret n1 n2 nonce).add1 = 0) ∧
    ((1 ≤ (computeTrace secret n1 n2 nonce).sub1 ∧ (computeTrace secret n1 n2 nonce).sub1 ≤ 5) ∨
      (computeTrace secret n1 n2 nonce).sub1 = 0) := by
  rw [computeTrace_eq_rng]
  exact ⟨rfl, trace_score_eq _ _ _, trace_base_range _ _ _, trace_simB_eq _ _ _,
    trace_vowelAdj_eq _ _ _, trace_bonus_eq _ _ _, trace_add1_cases _ _ _,
    trace_sub1_cases _ _ _⟩

/-- First component of the tier chain is the interval-style tier
label. -/
theorem tierOf_fst (sc : ℤ) : (tierOf sc).1 = tierLabel sc := by
  unfold tierOf tierLabel
  split_ifs <;> first | rfl | (exfalso; omega)

/-- Second component of the tier chain is the interval-style tier
vibe. -/
theorem tierOf_snd (sc : ℤ) : (tierOf sc).2 = tierVibe sc := by
  unfold tierOf tierVibe
  split_ifs <;> first | rfl | (exfalso; omega)

/-- Every trace produced by computeTraceRng is an mkTrace value (the
witnesses are the five scalar draws and the generator state). -/
theorem computeTraceRng_surj (ab : String × String) (s : ℕ) (g : MTState) :
    ∃ base simB vowelAdj add1 sub1 g3,
      computeTraceRng ab s g = mkTrace ab s base simB vowelAdj add1 sub1 g3 :=
  ⟨_, _, _, _, _, _, rfl⟩

/-- Label of an mkTrace value follows the score thresholds. -/
theorem mkTrace_label (ab : String × String) (s : ℕ) (base simB vowelAdj add1 sub1 : ℤ)
    (g3 : MTState) :
    (mkTrace ab s base simB vowelAdj add1 sub1 g3).label =
      tierLabel (mkTrace ab s base simB vowelAdj add1 sub1 g3).score := by
  simp only [mkTrace, tierOf_fst]

/-- Vibe of an mkTrace value follows the score thresholds. -/
theorem mkTrace_vibe (ab : String × String) (s : ℕ) (base simB vowelAdj add1 sub1 : ℤ)
    (g3 : MTState) :
    (mkTrace ab s base simB vowelAdj add1 sub1 g3).vibe =
      tierVibe (mkTrace ab s base simB vowelAdj add1 sub1 g3).score := by
  simp only [mkTrace, tierOf_snd]

/-- Label of a full trace follows the score thresholds. -/
theorem trace_label_eq (ab : String × String) (s : ℕ) (g : MTState) :
    (computeTraceRng ab s g).label = tierLabel (computeTraceRng ab s g).score := by
  obtain ⟨base, simB, vowelAdj, add1, sub1, g3, h⟩ := computeTraceRng_surj ab s g
  rw [h]
  exact mkTrace_label ab s base simB vowelAdj add1 sub1 g3

/-- Vibe of a full trace follows the score thresholds. -/
theorem trace_vibe_eq (ab : String × String) (s : ℕ) (g : MTState) :
    (computeTraceRng ab s g).vibe = tierVibe (computeTraceRng ab s g).score := by
  obtain ⟨base, simB, vowelAdj, add1, sub1, g3, h⟩ := computeTraceRng_surj ab s g
  rw [h]
  exact mkTrace_vibe ab s base simB vowelAdj add1 sub1 g3

/-- compute_match is the field-wise projection of its trace. -/
theorem compute_match_eq_trace (secret n1 n2 : String) (nonce : ℕ) :
    compute_match secret n1 n2 nonce =
      ⟨(computeTrace secret n1 n2 nonce).score, (computeTrace secret n1 n2 nonce).label,
       (computeTrace secret n1 n2 nonce).vibe, (computeTrace secret n1 n2 nonce).reasons,
       (computeTrace secret n1 n2 nonce).greens, (computeTrace secret n1 n2 nonce).reds⟩ := rfl

/-- C5 (amended): the tier label of a MatchResult is determined by
descending score thresholds with exact boundary inclusivity:
score >= 90 gives "Soulmate Mode", 75 <= score < 90 gives "Green Flag
Couple", 60 <= score < 75 gives "Potential (butuh effort)",
45 <= score < 60 gives "50:50", and score < 45 gives "Hati-hati";
each tier carries one fixed label string and one fixed vibe sentence.
(The claim names the third and fifth labels "Potential / needs
effort" and "Caution"; the code uses the fixed strings "Potential
(butuh effort)" and "Hati-hati".) -/
theorem tier_by_thresholds (secret n1 n2 : String) (nonce : ℕ) :
    (compute_match secret n1 n2 nonce).label = tierLabel (compute_match secret n1 n2 nonce).score ∧
    (compute_match secret n1 n2 nonce).vibe = tierVibe (compute_match secret n1 n2 nonce).score := by
  rw [compute_match_eq_trace, computeTrace_eq_rng]
  dsimp only
  constructor
  · exact trace_label_eq _ _ _
  · exact trace_vibe_eq _ _ _

/-- C5 (counterexample): with secret match-secret and nonce 0 the
pair Sari and Tono scores below 45, and its label is the fixed string
"Hati-hati", not "Caution" as the claim states. -/
theorem tier_label_counterexample :
    (compute_match "match-secret" "Sari" "Tono" 0).score < 45 ∧
    (compute_match "match-secret" "Sari" "Tono" 0).label = "Hati-hati" ∧
    "Hati-hati" ≠ "Caution" := by
  have hres : compute_match "match-secret" "Sari" "Tono" 0 =
      ⟨42, "Hati-hati", "Bukan nggak bisa, cuma rawan salah paham.",
        ["chemistry ada, tinggal konsistenin effort",
         "kalau ngambek, jangan silent treatmentâ€”ini titik rawan"],
        ["cepat baikan", "bikin tenang"],
        ["mendadak ngilang", "baper pas capek", "gengsi minta maaf"]⟩ := by
    have hpair : _pair_key (_clean "Sari") (_clean "Tono") = ("sari", "tono") := by decide
    have hseed : _stable_int "match-secret" ["sari", "tono", toString (0 : ℕ)] =
        2244113406136807654 := by decide
    simp only [compute_match, computeTrace, computeTraceKeyed, hpair, hseed, mtInit_cx5]
    decide
  refine ⟨?_, ?_, ?_⟩
  · rw [hres]
    decide
  · rw [hres]
  · decide

/-- Moving the element at index k to the front while writing x at k
is a permutation of consing x. -/
theorem getD_cons_set_perm :
    ∀ (l : List String) (k : ℕ) (x : String), k < l.length →
      (l.getD k "" :: l.set k x).Perm (x :: l) := by
  intro l
  induction l with
  | nil => intro k x h; simp at h
  | cons y ys ih =>
    intro k x h
    cases k with
    | zero => exact List.Perm.swap x y ys
    | succ k =>
      have hk : k < ys.length := by simpa using h
      exact ((List.Perm.swap y (ys.getD k "") (ys.set k x)).trans
        ((ih k x hk).cons y)).trans (List.Perm.swap x y ys)

/-- Swapping two in-range positions permutes the list. -/
theorem listSwap_perm :
    ∀ (l : List String) (i j : ℕ), i < l.length → j < l.length → (listSwap l i j).Perm l := by
  intro l
  induction l with
  | nil => intro i j hi _; simp at hi
  | cons y ys ih =>
    intro i j hi hj
    cases i with
    | zero =>
      cases j with
      | zero => simp [listSwap]
      | succ k =>
        have hk : k < ys.length := by simpa using hj
        simpa [listSwap] using getD_cons_set_perm ys k y hk
    | succ i =>
      cases j with
      | zero =>
        have hi2 : i < ys.length := by simpa using hi
        simpa [listSwap] using getD_cons_set_perm ys i y hi2
      | succ k =>
        have hi2 : i < ys.length := by simpa using hi
        have hk : k < ys.length := by simpa using hj
        simpa [listSwap] using (ih i k hi2 hk).cons y

/-- The Fisher-Yates loop permutes the list. -/
theorem shuffleAux_perm :
    ∀ (i : ℕ) (l : List String) (g : MTState), i < l.length → ((shuffleAux l g i).1).Perm l := by
  intro i
  induction i with
  | zero => intro l g _; simp [shuffleAux]
  | succ i ih =>
    intro l g h
    simp only [shuffleAux]
    have hj : (randbelow (i + 2) g).1 < i + 2 := randbelowAux_lt _ (by omega) _ _
    have hswap : (listSwap l (i + 1) (randbelow (i + 2) g).1).Perm l :=
      listSwap_perm l (i + 1) _ h (by omega)
    have hlen : (listSwap l (i + 1) (randbelow (i + 2) g).1).length = l.length := hswap.length_eq
    exact (ih _ _ (by omega)).trans hswap

/-- random.shuffle produces a permutation of its input. -/
theorem pyShuffle_perm (l : List String) (g : MTState) : ((pyShuffle l g).1).Perm l := by
  unfold pyShuffle
  cases l with
  | nil => simp [shuffleAux]
  | cons x xs => exact shuffleAux_perm _ _ _ (by simp)

/-- For k of at least 2 on a non-empty pool, _pick is
shuffle-then-take. -/
theorem pick_take (g : MTState) (items : List String) (k : ℕ) (hne : items ≠ []) (hk : 2 ≤ k) :
    (_pick g items k).1 = ((pyShuffle items g).1).take k := by
  unfold _pick
  rw [if_neg (by simp [hne]), if_neg (by omega)]

/-- _pick with 2 <= k <= pool size returns exactly k pairwise
distinct members of the pool. -/
theorem pick_spec (g : MTState) (items : List String) (k : ℕ) (hne : items ≠ []) (hk : 2 ≤ k)
    (hkl : k ≤ items.length) (hnd : items.Nodup) :
    (_pick g items k).1.length = k ∧ (_pick g items k).1.Nodup ∧
      ∀ x ∈ (_pick g items k).1, x ∈ items := by
  rw [pick_take g items k hne hk]
  have hp := pyShuffle_perm items g
  refine ⟨?_, ?_, ?_⟩
  · rw [List.length_take, hp.length_eq]
    omega
  · exact (List.take_sublist k _).nodup (hp.nodup_iff.mpr hnd)
  · intro x hx
    exact hp.mem_iff.mp (List.mem_of_mem_take hx)

/-- Content lists of an mkTrace value: lengths follow the score
thresholds, entries are distinct pool members. -/
theorem mkTrace_content (ab : String × String) (s : ℕ) (base simB vowelAdj add1 sub1 : ℤ)
    (g3 : MTState) :
    ((mkTrace ab s base simB vowelAdj add1 sub1 g3).reasons.length =
        (if 70 ≤ (mkTrace ab s base simB vowelAdj add1 sub1 g3).score then 3 else 2) ∧
      (mkTrace ab s base simB vowelAdj add1 sub1 g3).reasons.Nodup ∧
      ∀ x ∈ (mkTrace ab s base simB vowelAdj add1 sub1 g3).reasons, x ∈ reason_pool) ∧
    ((mkTrace ab s base simB vowelAdj add1 sub1 g3).greens.length =
        (if 75 ≤ (mkTrace ab s base simB vowelAdj add1 sub1 g3).score then 3 else 2) ∧
      (mkTrace ab s base simB vowelAdj add1 sub1 g3).greens.Nodup ∧
      ∀ x ∈ (mkTrace ab s base simB vowelAdj add1 sub1 g3).greens, x ∈ green_pool) ∧
    ((mkTrace ab s base simB vowelAdj add1 sub1 g3).reds.length =
        (if 60 ≤ (mkTrace ab s base simB vowelAdj add1 sub1 g3).score then 2 else 3) ∧
      (mkTrace ab s base simB vowelAdj add1 sub1 g3).reds.Nodup ∧
      ∀ x ∈ (mkTrace ab s base simB vowelAdj add1 sub1 g3).reds, x ∈ red_pool) := by
  simp only [mkTrace]
  have hr : reason_pool ≠ [] := by decide
  have hg : green_pool ≠ [] := by decide
  have hd : red_pool ≠ [] := by decide
  have hrn : reason_pool.Nodup := by decide
  have hgn : green_pool.Nodup := by decide
  have hdn : red_pool.Nodup := by decide
  refine ⟨?_, ?_, ?_⟩ <;> split_ifs <;>
    first
      | exact pick_spec _ _ _ hr (by omega) (by decide) hrn
      | exact pick_spec _ _ _ hg (by omega) (by decide) hgn
      | exact pick_spec _ _ _ hd (by omega) (by decide) hdn

/-- Content lists of a compute_match call: lengths follow the score
thresholds and entries are distinct pool members (shared by the
sampling and totality theorems below). -/
theorem match_content_aux (secret n1 n2 : String) (nonce : ℕ) :
    ((compute_match secret n1 n2 nonce).reasons.length =
        (if 70 ≤ (compute_match secret n1 n2 nonce).score then 3 else 2) ∧
      (compute_match secret n1 n2 nonce).reasons.Nodup ∧
      ∀ x ∈ (compute_match secret n1 n2 nonce).reasons, x ∈ reason_pool) ∧
    ((compute_match secret n1 n2 nonce).greens.length =
        (if 75 ≤ (compute_match secret n1 n2 nonce).score then 3 else 2) ∧
      (compute_match secret n1 n2 nonce).greens.Nodup ∧
      ∀ x ∈ (compute_match secret n1 n2 nonce).greens, x ∈ green_pool) ∧
    ((compute_match secret n1 n2 nonce).reds.length =
        (if 60 ≤ (compute_match secret n1 n2 nonce).score then 2 else 3) ∧
      (compute_match secret n1 n2 nonce).reds.Nodup ∧
      ∀ x ∈ (compute_match secret n1 n2 nonce).reds, x ∈ red_pool) := by
  rw [compute_match_eq_trace, computeTrace_eq_rng]
  dsimp only
  obtain ⟨base, simB, vowelAdj, add1, sub1, g3, h⟩ :=
    computeTraceRng_surj (_pair_key (_clean n1) (_clean n2))
      (_stable_int secret
        [(_pair_key (_clean n1) (_clean n2)).1, (_pair_key (_clean n1) (_clean n2)).2,
          toString nonce])
      (mtInit (_stable_int secret
        [(_pair_key (_clean n1) (_clean n2)).1, (_pair_key (_clean n1) (_clean n2)).2,
          toString nonce]))
  rw [h]
  exact mkTrace_content _ _ base simB vowelAdj add1 sub1 g3

/-- C6: content lists are sampled without replacement by shuffling a
copy of each fixed pool with the shared generator and taking the
first k entries, where k depends on the score: reasons has exactly 3
entries if score >= 70 else 2, greens exactly 3 if score >= 75 else
2, reds exactly 2 if score >= 60 else 3; the selected entries are
pairwise-distinct members of their pool. -/
theorem content_sampling (secret n1 n2 : String) (nonce : ℕ) :
    ((compute_match secret n1 n2 nonce).reasons.length =
        (if 70 ≤ (compute_match secret n1 n2 nonce).score then 3 else 2) ∧
      (compute_match secret n1 n2 nonce).reasons.Nodup ∧
      ∀ x ∈ (compute_match secret n1 n2 nonce).reasons, x ∈ reason_pool) ∧
    ((compute_match secret n1 n2 nonce).greens.length =
        (if 75 ≤ (compute_match secret n1 n2 nonce).score then 3 else 2) ∧
      (compute_match secret n1 n2 nonce).greens.Nodup ∧
      ∀ x ∈ (compute_match secret n1 n2 nonce).greens, x ∈ green_pool) ∧
    ((compute_match secret n1 n2 nonce).reds.length =
        (if 60 ≤ (compute_match secret n1 n2 nonce).score then 2 else 3) ∧
      (compute_match secret n1 n2 nonce).reds.Nodup ∧
      ∀ x ∈ (compute_match secret n1 n2 nonce).reds, x ∈ red_pool) :=
  match_content_aux secret n1 n2 nonce

/-- Updating the entry of a present token makes lookup return the
new entry. -/
theorem lookup_storeSet :
    ∀ (store : SessionStore) (token : String) (e s : SessionEntry),
      store.lookup token = some s → (storeSet store token e).lookup token = some e := by
  intro store token e s
  induction store with
  | nil => intro h; simp [List.lookup] at h
  | cons p t ih =>
    obtain ⟨k, v⟩ := p
    intro h
    by_cases hk : k = token
    · subst hk
      have h1 : storeSet ((k, v) :: t) k e = (k, e) :: storeSet t k e := by
        simp [storeSet]
      rw [h1]
      simp [List.lookup_cons]
    · have h1 : storeSet ((k, v) :: t) token e = (k, v) :: storeSet t token e := by
        simp [storeSet, hk]
      rw [h1]
      rw [List.lookup_cons, beq_false_of_ne (Ne.symm hk)] at h ⊢
      exact ih h

/-- C7: for every token present in the session store, a reroll of
that token increments its stored nonce by exactly 1 (and sessions are
created with nonce 0), and the MatchResult the reroll produces equals
a direct compute_match call with the current secret, the session's
two stored names and that new nonce. -/
theorem reroll_increments (secret : String) (store : SessionStore) (token : String)
    (s : SessionEntry) (h : store.lookup token = some s) :
    reroll secret store token =
      .rerolled (storeSet store token ⟨s.name1, s.name2, s.nonce + 1⟩)
        (compute_match secret s.name1 s.name2 (s.nonce + 1)) (s.nonce + 1) ∧
    (storeSet store token ⟨s.name1, s.name2, s.nonce + 1⟩).lookup token =
      some ⟨s.name1, s.name2, s.nonce + 1⟩ ∧
    ∀ (st : SessionStore) (t n1 n2 : String),
      (createSession st t n1 n2).lookup t = some ⟨n1, n2, 0⟩ := by
  refine ⟨?_, lookup_storeSet _ _ _ _ h, ?_⟩
  · unfold reroll
    rw [h]
  · intro st t n1 n2
    simp [createSession, List.lookup_cons]

/-- One-session store used to witness the reroll theorem. -/
def demoStore7 : SessionStore := [("tok7", ⟨"Asep", "Iyann", 0⟩)]

/-- Witness: rerolling the demo token behaves as the reroll theorem
states. -/
theorem reroll_increments_witness :
    demoStore7.lookup "tok7" = some ⟨"Asep", "Iyann", 0⟩ ∧
    (reroll "match-secret" demoStore7 "tok7" =
      .rerolled (storeSet demoStore7 "tok7" ⟨"Asep", "Iyann", 1⟩)
        (compute_match "match-secret" "Asep" "Iyann" 1) 1 ∧
    (storeSet demoStore7 "tok7" ⟨"Asep", "Iyann", 1⟩).lookup "tok7" =
      some ⟨"Asep", "Iyann", 1⟩ ∧
    ∀ (st : SessionStore) (t n1 n2 : String),
      (createSession st t n1 n2).lookup t = some ⟨n1, n2, 0⟩) :=
  ⟨by decide, reroll_increments "match-secret" demoStore7 "tok7" ⟨"Asep", "Iyann", 0⟩ (by decide)⟩

/-- C8: a reroll request whose token is not present in the session
store yields the expired outcome with the store unchanged; no
MatchResult is computed (the expired constructor carries none). -/
theorem reroll_expired (secret : String) (store : SessionStore) (token : String)
    (h : store.lookup token = none) :
    reroll secret store token = .expired store := by
  unfold reroll
  rw [h]

/-- Store without the queried token, used to witness the expiry
theorem. -/
def demoStore8 : SessionStore := [("tok8", ⟨"Budi", "Wati", 2⟩)]

/-- Witness: an unknown token on a concrete store reports expiry and
leaves the store unchanged. -/
theorem reroll_expired_witness :
    demoStore8.lookup "ghost" = none ∧
    reroll "match-secret" demoStore8 "ghost" = .expired demoStore8 :=
  ⟨by decide, reroll_expired "match-secret" demoStore8 "ghost" (by decide)⟩

/-- Score bounds at the compute_match level (shared helper). -/
theorem score_range_aux (secret n1 n2 : String) (nonce : ℕ) :
    1 ≤ (compute_match secret n1 n2 nonce).score ∧
      (compute_match secret n1 n2 nonce).score ≤ 100 :=
  traceRng_score_range (_pair_key (_clean n1) (_clean n2))
    (_stable_int secret
      [(_pair_key (_clean n1) (_clean n2)).1, (_pair_key (_clean n1) (_clean n2)).2, toString nonce])
    (mtInit (_stable_int secret
      [(_pair_key (_clean n1) (_clean n2)).1, (_pair_key (_clean n1) (_clean n2)).2, toString nonce]))

/-- C9: compute_match is total even when one or both names normalize
to the empty string: the call returns a well-formed MatchResult whose
score is in [1, 100] and whose content lists are non-empty, rather
than raising a division-by-zero or other error (the vowel-ratio
denominator is floored at 1 in the embedding exactly as in the
source). -/
theorem total_on_empty_names (secret : String) (nonce : ℕ) (n1 n2 : String)
    (_h : _clean n1 = "" ∨ _clean n2 = "") :
    (1 ≤ (compute_match secret n1 n2 nonce).score ∧
      (compute_match secret n1 n2 nonce).score ≤ 100) ∧
    2 ≤ (compute_match secret n1 n2 nonce).reasons.length ∧
    2 ≤ (compute_match secret n1 n2 nonce).greens.length ∧
    2 ≤ (compute_match secret n1 n2 nonce).reds.length := by
  obtain ⟨hr, hg, hd⟩ := match_content_aux secret n1 n2 nonce
  refine ⟨score_range_aux secret n1 n2 nonce, ?_, ?_, ?_⟩
  · rw [hr.1]
    split_ifs <;> norm_num
  · rw [hg.1]
    split_ifs <;> norm_num
  · rw [hd.1]
    split_ifs <;> norm_num

/-- Witness: an empty first name with a concrete secret produces a
well-formed result. -/
theorem total_on_empty_names_witness :
    (_clean "" = "" ∨ _clean "xy" = "") ∧
    ((1 ≤ (compute_match "s" "" "xy" 0).score ∧ (compute_match "s" "" "xy" 0).score ≤ 100) ∧
      2 ≤ (compute_match "s" "" "xy" 0).reasons.length ∧
      2 ≤ (compute_match "s" "" "xy" 0).greens.length ∧
      2 ≤ (compute_match "s" "" "xy" 0).reds.length) :=
  ⟨Or.inl (by decide), total_on_empty_names "s" 0 "" "xy" (Or.inl (by decide))⟩

def dropTrail (l : List Char) : List Char := (l.reverse.dropWhile pyIsSpace).reverse

def joinWords : List (List Char) → List Char
  | [] => []
  | [w] => w
  | w :: v :: ws => w ++ ' ' :: joinWords (v :: ws)

def noLead (l : List Char) : Prop := ∀ c, l.head? = some c → pyIsSpace c = false

def noTrail (l : List Char) : Prop := ∀ c, l.getLast? = some c → pyIsSpace c = false

/-- Sixty-four spaces followed by A: agrees with sp64B on the first
64 characters. -/
def sp64A : String := ⟨List.replicate 64 ' ' ++ ['A']⟩

/-- Sixty-four spaces followed by B. -/
def sp64B : String := ⟨List.replicate 64 ' ' ++ ['B']⟩

theorem pyStripL_eq (l : List Char) : pyStripL l = dropTrail (l.dropWhile pyIsSpace) := rfl

theorem wordsAux_ne_nil : ∀ (l acc : List Char), acc ≠ [] → wordsAux l acc ≠ [] := by
  intro l
  induction l with
  | nil =>
    intro acc hacc
    simp [wordsAux, hacc]
  | cons c t ih =>
    intro acc hacc
    by_cases hc : pyIsSpace c
    · simp only [wordsAux, hc, if_true]
      rw [if_neg (by simpa using hacc)]
      simp
    · simp only [wordsAux, hc, if_false]
      exact ih (c :: acc) (by simp)

theorem wordsAux_append_space :
    ∀ (l acc : List Char) (c : Char), pyIsSpace c = true →
      wordsAux (l ++ [c]) acc = wordsAux l acc := by
  intro l
  induction l with
  | nil =>
    intro acc c hc
    by_cases hacc : acc.isEmpty
    · simp [wordsAux, hc, hacc]
    · simp [wordsAux, hc, hacc]
  | cons d t ih =>
    intro acc c hc
    by_cases hd : pyIsSpace d
    · by_cases hacc : acc.isEmpty
      · simp only [List.cons_append, wordsAux, hd, if_true, hacc, if_true, List.append_eq]
        exact ih [] c hc
      · simp only [List.cons_append, wordsAux, hd, if_true, hacc, if_false, List.append_eq]
        rw [ih [] c hc]
    · simp only [List.cons_append, wordsAux, hd, if_false, List.append_eq]
      exact ih (d :: acc) c hc

theorem words_dropWhile : ∀ l : List Char, wordsAux (l.dropWhile pyIsSpace) [] = wordsAux l [] := by
  intro l
  induction l with
  | nil => rfl
  | cons c t ih =>
    by_cases hc : pyIsSpace c
    · rw [List.dropWhile_cons_of_pos hc, ih]
      simp [wordsAux, hc]
    · rw [List.dropWhile_cons_of_neg hc]

theorem words_dropTrail : ∀ l : List Char, wordsAux (dropTrail l) [] = wordsAux l [] := by
  intro l
  induction l using List.reverseRecOn with
  | nil => rfl
  | append_singleton t c ih =>
    by_cases hc : pyIsSpace c
    · have h1 : dropTrail (t ++ [c]) = dropTrail t := by
        simp [dropTrail, List.dropWhile_cons_of_pos hc]
      rw [h1, ih, wordsAux_append_space t [] c hc]
    · have h1 : dropTrail (t ++ [c]) = t ++ [c] := by
        simp [dropTrail, List.dropWhile_cons_of_neg hc]
      rw [h1]

theorem words_strip (l : List Char) : wordsAux (pyStripL l) [] = wordsAux l [] := by
  rw [pyStripL_eq, words_dropTrail, words_dropWhile]

theorem collapseAux_true_eq :
    ∀ l : List Char, collapseAux true l = collapseAux false (l.dropWhile pyIsSpace) := by
  intro l
  induction l with
  | nil => rfl
  | cons c t ih =>
    by_cases hc : pyIsSpace c
    · rw [List.dropWhile_cons_of_pos hc]
      simpa [collapseAux, hc] using ih
    · rw [List.dropWhile_cons_of_neg hc]
      simp [collapseAux, hc]

theorem noTrail_cons (c : Char) (r : List Char) (h : noTrail (c :: r)) (hr : r ≠ []) :
    noTrail r := by
  intro d hd
  apply h
  cases r with
  | nil => exact absurd rfl hr
  | cons x xs =>
    rw [List.getLast?_cons_cons]
    exact hd

theorem noTrail_cons_space (c : Char) (r : List Char) (h : noTrail (c :: r))
    (hc : pyIsSpace c = true) : r ≠ [] := by
  intro hr
  subst hr
  have := h c (by simp)
  rw [this] at hc
  exact absurd hc (by simp)

theorem noTrail_dropWhile (l : List Char) (h : noTrail l) : noTrail (l.dropWhile pyIsSpace) := by
  intro d hd
  apply h
  obtain ⟨t, ht⟩ : ∃ t, l = t ++ l.dropWhile pyIsSpace := ⟨l.takeWhile pyIsSpace, by
    rw [List.takeWhile_append_dropWhile]⟩
  rw [ht, List.getLast?_append_of_ne_nil]
  · exact hd
  · intro hnil
    rw [hnil] at hd
    simp at hd

theorem words_ne_nil_of_noTrail :
    ∀ r : List Char, noTrail r → r ≠ [] → wordsAux r [] ≠ [] := by
  intro r
  induction r with
  | nil => intro _ h; exact absurd rfl h
  | cons c t ih =>
    intro h _
    by_cases hc : pyIsSpace c
    · have ht : t ≠ [] := noTrail_cons_space c t h hc
      have h2 : wordsAux t [] ≠ [] := ih (noTrail_cons c t h ht) ht
      simpa [wordsAux, hc] using h2
    · simp only [wordsAux, hc, if_false]
      exact wordsAux_ne_nil t [c] (by simp)

theorem length_dropWhile_sp_le (l : List Char) :
    (l.dropWhile pyIsSpace).length ≤ l.length := by
  induction l with
  | nil => simp
  | cons c t ih =>
    by_cases hc : pyIsSpace c
    · rw [List.dropWhile_cons_of_pos hc]
      exact le_trans ih (by simp)
    · rw [List.dropWhile_cons_of_neg hc]

theorem head_dropWhile_sp (l : List Char) :
    ∀ x xs, l.dropWhile pyIsSpace = x :: xs → pyIsSpace x = false := by
  induction l with
  | nil => intro x xs h; simp at h
  | cons c t ih =>
    intro x xs h
    by_cases hc : pyIsSpace c
    · rw [List.dropWhile_cons_of_pos hc] at h
      exact ih x xs h
    · rw [List.dropWhile_cons_of_neg hc] at h
      simp only [List.cons.injEq] at h
      rw [← h.1]
      simpa using hc

theorem join_collapse_main :
    ∀ (n : ℕ) (t : List Char), t.length ≤ n → noTrail t →
      ((∀ acc : List Char, acc ≠ [] →
          joinWords (wordsAux t acc) = acc.reverse ++ collapseAux false t) ∧
        (noLead t → joinWords (wordsAux t []) = collapseAux false t)) := by
  intro n
  induction n with
  | zero =>
    intro t ht _
    have : t = [] := List.length_eq_zero.mp (Nat.le_zero.mp ht)
    subst this
    constructor
    · intro acc hacc
      simp [wordsAux, joinWords, collapseAux, hacc]
    · intro _
      rfl
  | succ n ih =>
    intro t ht hnt
    cases t with
    | nil =>
      constructor
      · intro acc hacc
        simp [wordsAux, joinWords, collapseAux, hacc]
      · intro _
        rfl
    | cons c r =>
      have hlr : r.length ≤ n := by simpa using ht
      constructor
      · intro acc hacc
        by_cases hc : pyIsSpace c
        · have hr : r ≠ [] := noTrail_cons_space c r hnt hc
          have hntr : noTrail r := noTrail_cons c r hnt hr
          have hwr : wordsAux r [] ≠ [] := words_ne_nil_of_noTrail r hntr hr
          have hstep : wordsAux (c :: r) acc = acc.reverse :: wordsAux r [] := by
            simp only [wordsAux, hc, if_true]
            rw [if_neg (by simpa using hacc)]
          rw [hstep]
          obtain ⟨w, ws, hws⟩ : ∃ w ws, wordsAux r [] = w :: ws := by
            cases hwr2 : wordsAux r [] with
            | nil => exact absurd hwr2 hwr
            | cons w ws => exact ⟨w, ws, rfl⟩
          have hinner : joinWords (wordsAux r []) = collapseAux true r := by
            rw [collapseAux_true_eq]
            have hdl : (r.dropWhile pyIsSpace).length ≤ n :=
              le_trans (length_dropWhile_sp_le r) hlr
            have hdnt : noTrail (r.dropWhile pyIsSpace) := noTrail_dropWhile r hntr
            have hdnl : noLead (r.dropWhile pyIsSpace) := by
              intro d hd
              cases hdw : r.dropWhile pyIsSpace with
              | nil => rw [hdw] at hd; simp at hd
              | cons x xs =>
                rw [hdw] at hd
                simp only [List.head?_cons, Option.some_inj] at hd
                subst hd
                exact head_dropWhile_sp r _ xs hdw
            rw [← words_dropWhile r]
            exact (ih _ hdl hdnt).2 hdnl
          rw [hws] at hinner ⊢
          have hjoin : joinWords (acc.reverse :: w :: ws) = acc.reverse ++ ' ' :: joinWords (w :: ws) := rfl
          rw [hjoin, hinner]
          simp [collapseAux, hc]
        · have hntr : noTrail r := by
            cases hr : r with
            | nil => intro d hd; simp [hr] at hd
            | cons x xs =>
              rw [← hr]
              exact noTrail_cons c r hnt (by simp [hr])
          have hstep : wordsAux (c :: r) acc = wordsAux r (c :: acc) := by
            simp [wordsAux, hc]
          rw [hstep, (ih r hlr hntr).1 (c :: acc) (by simp)]
          simp [collapseAux, hc]
      · intro hnl
        by_cases hc : pyIsSpace c
        · have := hnl c (by simp)
          rw [this] at hc
          exact absurd hc (by simp)
        · have hntr : noTrail r := by
            cases hr : r with
            | nil => intro d hd; simp [hr] at hd
            | cons x xs =>
              rw [← hr]
              exact noTrail_cons c r hnt (by simp [hr])
          have hstep : wordsAux (c :: r) [] = wordsAux r [c] := by
            simp [wordsAux, hc]
          rw [hstep, (ih r hlr hntr).1 [c] (by simp)]
          simp [collapseAux, hc]

theorem noLead_strip (l : List Char) : noLead (pyStripL l) := by
  intro c hc
  rw [pyStripL_eq] at hc
  set m := l.dropWhile pyIsSpace with hm
  have hsplit : m = dropTrail m ++ (m.reverse.takeWhile pyIsSpace).reverse := by
    have h1 : List.takeWhile pyIsSpace m.reverse ++ List.dropWhile pyIsSpace m.reverse
        = m.reverse := by rw [List.takeWhile_append_dropWhile]
    calc m = m.reverse.reverse := (List.reverse_reverse m).symm
      _ = (List.takeWhile pyIsSpace m.reverse ++ List.dropWhile pyIsSpace m.reverse).reverse := by
          rw [h1]
      _ = dropTrail m ++ (m.reverse.takeWhile pyIsSpace).reverse := by
          rw [List.reverse_append]; rfl
  cases hdt : dropTrail m with
  | nil => rw [hdt] at hc; simp at hc
  | cons x xs =>
    rw [hdt] at hc
    simp only [List.head?_cons, Option.some_inj] at hc
    have hm2 : List.dropWhile pyIsSpace l = x :: (xs ++ (m.reverse.takeWhile pyIsSpace).reverse) := by
      conv_lhs => rw [← hm, hsplit, hdt]
      rw [List.cons_append]
    rw [hc] at hm2
    exact head_dropWhile_sp l c _ hm2

theorem noTrail_strip (l : List Char) : noTrail (pyStripL l) := by
  intro c hc
  rw [pyStripL_eq] at hc
  unfold dropTrail at hc
  rw [List.getLast?_reverse] at hc
  cases hdw : (l.dropWhile pyIsSpace).reverse.dropWhile pyIsSpace with
  | nil => rw [hdw] at hc; simp at hc
  | cons x xs =>
    rw [hdw] at hc
    simp only [List.head?_cons, Option.some_inj] at hc
    rw [← hc]
    exact head_dropWhile_sp (l.dropWhile pyIsSpace).reverse x xs hdw

theorem clean_words (l : List Char) : cleanL l = (joinWords (wordsAux l [])).take 64 := by
  have hq := (join_collapse_main (pyStripL l).length (pyStripL l) le_rfl (noTrail_strip l)).2
    (noLead_strip l)
  unfold cleanL collapseWs
  rw [← hq, words_strip]

theorem dropWhile_sp_of_noLead (m : List Char) (h : noLead m) : m.dropWhile pyIsSpace = m := by
  cases m with
  | nil => rfl
  | cons c t => exact List.dropWhile_cons_of_neg (by simp [h c rfl])

theorem dropTrail_of_noTrail (m : List Char) (h : noTrail m) : dropTrail m = m := by
  unfold dropTrail
  rw [dropWhile_sp_of_noLead m.reverse (by
    intro c hc
    rw [List.head?_reverse] at hc
    exact h c hc)]
  exact List.reverse_reverse m

theorem pyStripL_idem (l : List Char) : pyStripL (pyStripL l) = pyStripL l := by
  conv_lhs => rw [pyStripL_eq]
  rw [dropWhile_sp_of_noLead _ (noLead_strip l), dropTrail_of_noTrail _ (noTrail_strip l)]

theorem collapse_nil_iff (l : List Char) : collapseWs l = [] ↔ l = [] := by
  constructor
  · intro h
    cases l with
    | nil => rfl
    | cons c t =>
      by_cases hc : pyIsSpace c <;> simp [collapseWs, collapseAux, hc] at h
  · intro h
    rw [h]
    rfl

theorem words_nil_iff (l : List Char) : wordsAux l [] = [] ↔ pyStripL l = [] := by
  constructor
  · intro h
    by_contra hne
    cases hst : pyStripL l with
    | nil => exact hne hst
    | cons c t =>
      have hc : pyIsSpace c = false := noLead_strip l c (by rw [hst]; rfl)
      have : wordsAux (pyStripL l) [] ≠ [] := by
        rw [hst]
        simp only [wordsAux, hc, if_false]
        exact wordsAux_ne_nil t [c] (by simp)
      rw [words_strip] at this
      exact this h
  · intro h
    rw [← words_strip, h]
    rfl

/-- Strings built from equal character lists are equal, and the empty
string holds the empty list. -/
theorem string_mk_eq_empty_iff (l : List Char) : String.mk l = "" ↔ l = [] := by
  constructor
  · intro h
    exact congrArg String.data h
  · intro h
    rw [h]

/-- The collapsed stripped text is exactly the single-space join of
the whitespace-delimited words. -/
theorem collapse_strip_eq_join (l : List Char) :
    collapseWs (pyStripL l) = joinWords (wordsAux l []) := by
  have hq := (join_collapse_main (pyStripL l).length (pyStripL l) le_rfl (noTrail_strip l)).2
    (noLead_strip l)
  rw [← words_strip, hq]
  rfl

/-- Closed form of the stored override secret: nothing when the
argument is all whitespace, otherwise the stripped, run-collapsed,
64-truncated text. -/
theorem setsecretStored_eq (s : String) :
    setsecretStored s =
      if pyStripL s.data = [] then none
      else some (String.mk ((collapseWs (pyStripL s.data)).take 64)) := by
  simp only [setsecretStored, pyStrip, _clean, cleanL]
  by_cases h : pyStripL s.data = []
  · rw [if_pos ((string_mk_eq_empty_iff _).mpr h), if_pos h]
  · rw [if_neg (fun hc => h ((string_mk_eq_empty_iff _).mp hc)), if_neg h]
    rw [pyStripL_idem]

/-- C10 (amended): the stored override secret is the normalized form
of the argument: stripped, every internal whitespace run collapsed to
one space, then truncated to 64 characters (an all-whitespace
argument stores nothing). Two override values with the same
whitespace-delimited word sequence, or more generally whose stripped
and run-collapsed texts agree on the first 64 characters, store the
same secret and make every subsequent scoring call produce identical
results. (The claim's condition that the raw arguments differ only
beyond their first 64 characters is not sufficient, because the
truncation happens after stripping and collapsing; see the
counterexample.) -/
theorem setsecret_normalizes (s1 s2 : String)
    (h : wsWords s1 = wsWords s2 ∨
      (collapseWs (pyStripL s1.data)).take 64 = (collapseWs (pyStripL s2.data)).take 64) :
    setsecretStored s1 = setsecretStored s2 ∧
    (setsecretStored s1 = none ∨
      setsecretStored s1 = some (String.mk ((collapseWs (pyStripL s1.data)).take 64))) ∧
    ∀ n1 n2 : String, ∀ nonce : ℕ,
      Option.map (fun sec => compute_match sec n1 n2 nonce) (setsecretStored s1) =
      Option.map (fun sec => compute_match sec n1 n2 nonce) (setsecretStored s2) := by
  have hcoll : (collapseWs (pyStripL s1.data)).take 64
      = (collapseWs (pyStripL s2.data)).take 64 := by
    rcases h with h | h
    · rw [collapse_strip_eq_join, collapse_strip_eq_join]
      unfold wsWords at h
      rw [h]
    · exact h
  have hemp : ∀ t1 t2 : String,
      (collapseWs (pyStripL t1.data)).take 64 = (collapseWs (pyStripL t2.data)).take 64 →
      pyStripL t1.data = [] → pyStripL t2.data = [] := by
    intro t1 t2 hc h1
    have htake : (collapseWs (pyStripL t2.data)).take 64 = [] := by
      rw [← hc, h1]
      rfl
    cases hc2 : collapseWs (pyStripL t2.data) with
    | nil => exact (collapse_nil_iff _).mp hc2
    | cons c cs =>
      rw [hc2] at htake
      simp at htake
  have key : setsecretStored s1 = setsecretStored s2 := by
    rw [setsecretStored_eq, setsecretStored_eq]
    by_cases h1 : pyStripL s1.data = []
    · rw [if_pos h1, if_pos (hemp s1 s2 hcoll h1)]
    · rw [if_neg h1, if_neg (fun h2 => h1 (hemp s2 s1 hcoll.symm h2)), hcoll]
  refine ⟨key, ?_, ?_⟩
  · rw [setsecretStored_eq]
    by_cases h1 : pyStripL s1.data = []
    · exact Or.inl (if_pos h1)
    · exact Or.inr (if_neg h1)
  · intro n1 n2 nonce
    rw [key]

/-- C10 (witness): the arguments "a  b" and " a b " have the same
word sequence, so they store the same secret and score identically. -/
theorem setsecret_normalizes_witness :
    setsecretStored "a  b" = setsecretStored " a b " ∧
    (setsecretStored "a  b" = none ∨
      setsecretStored "a  b" = some (String.mk ((collapseWs (pyStripL ("a  b" : String).data)).take 64))) ∧
    ∀ n1 n2 : String, ∀ nonce : ℕ,
      Option.map (fun sec => compute_match sec n1 n2 nonce) (setsecretStored "a  b") =
      Option.map (fun sec => compute_match sec n1 n2 nonce) (setsecretStored " a b ") :=
  setsecret_normalizes "a  b" " a b " (Or.inl (by decide))

/-- C10 (counterexample): two override arguments that agree on their
first 64 characters (both start with 64 spaces) and differ only
beyond them store different secrets ("A" versus "B"), and a
subsequent scoring call for Budi and Sari at nonce 0 produces
different results (score 91 versus 73): the 64-character truncation
happens after stripping and collapsing, not on the raw argument. -/
theorem setsecret_truncation_counterexample :
    sp64A.data.take 64 = sp64B.data.take 64 ∧ sp64A ≠ sp64B ∧
    setsecretStored sp64A = some "A" ∧ setsecretStored sp64B = some "B" ∧
    (compute_match "A" "Budi" "Sari" 0).score = 91 ∧
    (compute_match "B" "Budi" "Sari" 0).score = 73 ∧
    compute_match "A" "Budi" "Sari" 0 ≠ compute_match "B" "Budi" "Sari" 0 := by
  have hpair : _pair_key (_clean "Budi") (_clean "Sari") = ("budi", "sari") := by decide
  have hresA : compute_match "A" "Budi" "Sari" 0 =
      ⟨91, "Soulmate Mode", "Kalian kalau chat, universe ikut ngetik.",
        ["kalau ngambek, jangan silent treatmentâ€”ini titik rawan",
         "cara mikir kalian komplementer, bukan tabrakan",
         "ritme komunikasi cocok: nggak kebanyakan, nggak kelamaan ngilang"],
        ["nyaman jadi diri sendiri", "cepat baikan", "supportive"],
        ["komunikasi putus-nyambung", "gengsi minta maaf"]⟩ := by
    have hseedA : _stable_int "A" ["budi", "sari", toString (0 : ℕ)] =
        10171309699278965146 := by decide
    simp only [compute_match, computeTrace, computeTraceKeyed, hpair, hseedA, mtInit_cxA]
    decide
  have hresB : compute_match "B" "Budi" "Sari" 0 =
      ⟨73, "Potential (butuh effort)", "Chemistry ada, tinggal konsistenin usaha.",
        ["satu spontan, satu rapiâ€”kalau saling ngerti jadi kuat",
         "kalau ngambek, jangan silent treatmentâ€”ini titik rawan",
         "chemistry ada, tinggal konsistenin effort"],
        ["bisa teamwork", "bikin tenang"],
        ["mendadak ngilang", "baper pas capek"]⟩ := by
    have hseedB : _stable_int "B" ["budi", "sari", toString (0 : ℕ)] =
        7081104454956892892 := by decide
    simp only [compute_match, computeTrace, computeTraceKeyed, hpair, hseedB, mtInit_cxB]
    decide
  refine ⟨by decide, by decide, by decide, by decide, ?_, ?_, ?_⟩
  · rw [hresA]
  · rw [hresB]
  · intro h
    rw [hresA, hresB] at h
    exact absurd (congrArg MatchResult.score h) (by decide)
